import Mathlib

/-
Shallow embedding of the presence and status-tracking core of the
real-time-chat server (src/server.js together with the message schema in
src/db.js).  JavaScript Map values become association lists, JavaScript Set
values become duplicate-free lists, the durable Mongo collection becomes a
list of records, and each socket event handler becomes a pure function from
a server state (plus the inputs the handler reads: the acting socket id, the
socket.username property, the event payload, freshly generated ids and
timestamps, and the success or failure of each awaited persistence call) to
a new server state plus the list of emitted notifications.
-/

namespace RtChat

/-- Emission target: socket.emit / io.to(socketId) hit one socket,
io.to(groupId) / socket.to(room) hit a room, io.emit hits everyone. -/
inductive ETarget where
  | sock (sid : String)
  | room (name : String)
  | all
  deriving DecidableEq

/-- One outbound notification, recorded as target plus event name. -/
structure Emit where
  target : ETarget
  event : String
  deriving DecidableEq

/-- Lookup in a JavaScript Map modelled as an association list
(first binding for the key wins, as maps built by set/delete never
hold a duplicate key). -/
def mapGet {α : Type} (m : List (String × α)) (k : String) : Option α :=
  match m with
  | [] => none
  | (k', v) :: r => if k' == k then some v else mapGet r k

/-- Map.has. -/
def mapHas {α : Type} (m : List (String × α)) (k : String) : Bool :=
  (mapGet m k).isSome

/-- Map.set: update the binding in place if the key is present,
otherwise append a new binding at the end (JavaScript insertion order). -/
def mapSet {α : Type} (m : List (String × α)) (k : String) (v : α) :
    List (String × α) :=
  match m with
  | [] => [(k, v)]
  | (k', v') :: r => if k' == k then (k, v) :: r else (k', v') :: mapSet r k v

/-- Map.delete: remove the binding for the key. -/
def mapDel {α : Type} (m : List (String × α)) (k : String) :
    List (String × α) :=
  match m with
  | [] => []
  | (k', v') :: r => if k' == k then r else (k', v') :: mapDel r k

/-- Set.add on a duplicate-free list: append if absent (also the semantics
of the Mongo addToSet update operator used by the server). -/
def setAdd (s : List String) (x : String) : List String :=
  if s.contains x then s else s ++ [x]

/-- Set.delete. -/
def setDel (s : List String) (x : String) : List String :=
  s.filter (fun y => y != x)

/-- Set.has. -/
def setHas (s : List String) (x : String) : Bool := s.contains x

/-- Leading-whitespace removal on a character list. -/
def dropWsLeft : List Char → List Char
  | [] => []
  | c :: r => if c.isWhitespace then dropWsLeft r else c :: r

/-- Whitespace trimming at both ends, the semantics of the JavaScript
String.prototype.trim calls in the handlers (structurally recursive so
that concrete runs evaluate). -/
def jsTrim (s : String) : String :=
  ⟨(dropWsLeft (dropWsLeft s.data).reverse).reverse⟩

/-- JavaScript truthiness test for an optional string: undefined and the
empty string are falsy. -/
def falsyS : Option String → Bool
  | none => true
  | some s => s == ""

/-- Persisted message record (schema of src/db.js).  Single-valued Mongo
Date fields become Option Nat ticks; the creation timestamp plays no role
in any handler and is omitted. -/
structure DbMessage where
  messageId : String
  fromUser : String
  toUser : Option String
  groupId : Option String
  groupName : Option String
  chatType : String
  text : String
  status : String
  deliveredTo : List String
  readBy : List String
  deliveredAt : Option Nat
  readAt : Option Nat
  deriving DecidableEq

/-- Message.findOne on the messageId key: first record carrying the id. -/
def dbFind (db : List DbMessage) (mid : String) : Option DbMessage :=
  match db with
  | [] => none
  | d :: r => if d.messageId == mid then some d else dbFind r mid

/-- Message.updateOne on the messageId key.  The schema declares a unique
index on messageId (src/db.js line 18), so at most one record matches; the
update is modelled pointwise over all records carrying the id. -/
def dbUpdate (db : List DbMessage) (mid : String) (f : DbMessage → DbMessage) :
    List DbMessage :=
  match db with
  | [] => []
  | d :: r =>
    (if d.messageId == mid then f d else d) :: dbUpdate r mid f

/-- In-memory tracker entry stored in the messageStatus map (server.js
lines 146-153 for private sends, 583-593 for group sends).  The JavaScript
objects for the two chat types have different fields; the unused fields of
the other variant stay at their creation defaults here. -/
structure TrackEntry where
  fromUser : String
  toUser : Option String
  groupId : Option String
  groupName : Option String
  status : String
  chatType : String
  deliveredTo : List String
  readBy : List String
  totalMembers : Nat
  deliveredAt : Option Nat
  readAt : Option Nat
  deriving DecidableEq

/-- The whole mutable server state: the module-level maps of server.js
plus the durable message store. -/
structure ServerState where
  userSocketMap : List (String × String)
  socketUserMap : List (String × String)
  rooms : List (String × List String)
  userRooms : List (String × List String)
  groupIds : List (String × String)
  groupMembers : List (String × List String)
  messageStatus : List (String × TrackEntry)
  db : List DbMessage
  deriving DecidableEq

/-- The empty initial state. -/
def st0 : ServerState := ⟨[], [], [], [], [], [], [], []⟩

/-- Result of running one handler: the state after the handler, the
notifications it emitted, and whether it died with an uncaught runtime
error (threw = true means execution stopped at that point). -/
structure HR where
  st : ServerState
  emits : List Emit
  threw : Bool
  deriving DecidableEq

/-- Abbreviation for the state produced by the post-persistence phase of
an acknowledgment handler: original state with the durable store and the
messageStatus map replaced. -/
def ackState (st : ServerState) (db1 : List DbMessage)
    (ms : List (String × TrackEntry)) : ServerState :=
  { st with db := db1, messageStatus := ms }

/-- Event register (server.js lines 48-83).  Validation rejects a missing
or all-blank username; a username already present in userSocketMap is
rejected regardless of which socket holds it; otherwise both directions of
the identity mapping are installed (the untrimmed username is stored). -/
def register (st : ServerState) (sid username : String) : HR :=
  if username == "" || jsTrim username == "" then
    ⟨st, [⟨.sock sid, "error"⟩], false⟩
  else if mapHas st.userSocketMap username then
    ⟨st, [⟨.sock sid, "error"⟩], false⟩
  else
    ⟨{ st with
        userSocketMap := mapSet st.userSocketMap username sid
        socketUserMap := mapSet st.socketUserMap sid username },
      [⟨.sock sid, "registered"⟩, ⟨.all, "userList"⟩, ⟨.all, "userStatus"⟩],
      false⟩

/-- Event privateMessage (server.js lines 92-165).  The uname argument is
the socket.username property; createOk tells whether the awaited
Message.create call succeeds.  On a persistence failure the handler emits
an error to the sender and returns before any tracker entry or push. -/
def privateMessage (st : ServerState) (sid : String) (uname : Option String)
    (toUser text msgId : String) (createOk : Bool) : HR :=
  if falsyS uname then ⟨st, [⟨.sock sid, "error"⟩], false⟩ else
  let fromU := uname.getD ""
  if toUser == "" || text == "" then ⟨st, [⟨.sock sid, "error"⟩], false⟩ else
  match mapGet st.userSocketMap toUser with
  | none => ⟨st, [⟨.sock sid, "error"⟩], false⟩
  | some receiverSocketId =>
    if createOk then
      let doc : DbMessage :=
        { messageId := msgId, fromUser := fromU, toUser := some toUser,
          groupId := none, groupName := none, chatType := "private",
          text := jsTrim text, status := "sent",
          deliveredTo := [], readBy := [], deliveredAt := none, readAt := none }
      let entry : TrackEntry :=
        { fromUser := fromU, toUser := some toUser, groupId := none,
          groupName := none, status := "sent", chatType := "private",
          deliveredTo := [], readBy := [], totalMembers := 0,
          deliveredAt := none, readAt := none }
      ⟨{ st with db := st.db ++ [doc],
                 messageStatus := mapSet st.messageStatus msgId entry },
        [⟨.sock receiverSocketId, "privateMessage"⟩, ⟨.sock sid, "messageSent"⟩],
        false⟩
    else ⟨st, [⟨.sock sid, "error"⟩], false⟩

/-- Event joinGroup (server.js lines 185-256).  freshId is the identifier
minted when the room does not exist yet.  The guard on line 224 tests the
JavaScript truthiness of groupId, hence the extra empty-string check. -/
def joinGroup (st : ServerState) (sid : String) (uname : Option String)
    (groupName freshId : String) : HR :=
  if falsyS uname then ⟨st, [⟨.sock sid, "error"⟩], false⟩ else
  let username := uname.getD ""
  if groupName == "" || jsTrim groupName == "" then
    ⟨st, [⟨.sock sid, "error"⟩], false⟩ else
  let roomName := jsTrim groupName
  let init : ServerState × Option String :=
    if !mapHas st.rooms roomName then
      ({ st with rooms := mapSet st.rooms roomName [],
                 groupIds := mapSet st.groupIds roomName freshId,
                 groupMembers := mapSet st.groupMembers freshId [] },
       some freshId)
    else (st, mapGet st.groupIds roomName)
  let st1 := init.1
  let groupId := init.2
  let rs2 := setAdd ((mapGet st1.rooms roomName).getD []) sid
  let st2 := { st1 with rooms := mapSet st1.rooms roomName rs2 }
  let st3 := if mapHas st2.userRooms sid then st2
    else { st2 with userRooms := mapSet st2.userRooms sid [] }
  let ur4 := setAdd ((mapGet st3.userRooms sid).getD []) roomName
  let st4 := { st3 with userRooms := mapSet st3.userRooms sid ur4 }
  let st5 := match groupId with
    | some gid =>
      if gid != "" && mapHas st4.groupMembers gid then
        let gm := setAdd ((mapGet st4.groupMembers gid).getD []) username
        { st4 with groupMembers := mapSet st4.groupMembers gid gm }
      else st4
    | none => st4
  ⟨st5,
    [⟨.sock sid, "groupJoined"⟩, ⟨.room (groupId.getD ""), "userJoinedGroup"⟩,
     ⟨.all, "groupList"⟩],
    false⟩

/-- Event leaveGroup (server.js lines 263-319).  Inside the block guarded
by rooms.has(roomName), the declaration const groupId on line 288 shadows
the outer binding from line 272 for the whole block, so the read of
groupId in the guard on line 283 happens in the temporal dead zone of that
inner declaration and raises an uncaught ReferenceError.  Execution
therefore always stops right after the two set deletions on lines 275-279:
the username is never removed from groupMembers, the empty-room cleanup on
lines 297-303 is never reached, and no notification is emitted. -/
def leaveGroup (st : ServerState) (sid : String) (uname : Option String)
    (groupName : String) : HR :=
  if falsyS uname || groupName == "" then ⟨st, [], false⟩ else
  let roomName := jsTrim groupName
  if mapHas st.rooms roomName then
    let rs := setDel ((mapGet st.rooms roomName).getD []) sid
    let st1 := { st with rooms := mapSet st.rooms roomName rs }
    let st2 := if mapHas st1.userRooms sid then
        let ur := setDel ((mapGet st1.userRooms sid).getD []) roomName
        { st1 with userRooms := mapSet st1.userRooms sid ur }
      else st1
    ⟨st2, [], true⟩
  else ⟨st, [], false⟩

/-- Event addUserToGroup (server.js lines 326-395).  The call on line 369
dereferences groupMembers.get(groupId) without a has-check; a missing
entry would raise a TypeError, modelled by the threw flag. -/
def addUserToGroup (st : ServerState) (sid : String) (uname : Option String)
    (groupName targetUsername : String) : HR :=
  if falsyS uname || groupName == "" || targetUsername == "" then
    ⟨st, [⟨.sock sid, "error"⟩], false⟩ else
  let roomName := jsTrim groupName
  let groupId := mapGet st.groupIds roomName
  if !mapHas st.rooms roomName || falsyS groupId then
    ⟨st, [⟨.sock sid, "error"⟩], false⟩ else
  if !setHas ((mapGet st.rooms roomName).getD []) sid then
    ⟨st, [⟨.sock sid, "error"⟩], false⟩ else
  match mapGet st.userSocketMap targetUsername with
  | none => ⟨st, [⟨.sock sid, "error"⟩], false⟩
  | some targetSid =>
    if setHas ((mapGet st.rooms roomName).getD []) targetSid then
      ⟨st, [⟨.sock sid, "error"⟩], false⟩ else
    let gid := groupId.getD ""
    let rs := setAdd ((mapGet st.rooms roomName).getD []) targetSid
    let st1 := { st with rooms := mapSet st.rooms roomName rs }
    let st2 := if mapHas st1.userRooms targetSid then st1
      else { st1 with userRooms := mapSet st1.userRooms targetSid [] }
    let ur := setAdd ((mapGet st2.userRooms targetSid).getD []) roomName
    let st3 := { st2 with userRooms := mapSet st2.userRooms targetSid ur }
    match mapGet st3.groupMembers gid with
    | none => ⟨st3, [], true⟩
    | some ms =>
      let gm := setAdd ms targetUsername
      let st4 := { st3 with groupMembers := mapSet st3.groupMembers gid gm }
      ⟨st4, [⟨.room gid, "userAddedToGroup"⟩, ⟨.all, "groupList"⟩], false⟩

/-- Event groupMessage (server.js lines 518-599).  totalMembers snapshots
the size of the socket set of the room at send time; createOk tells
whether the awaited Message.create call succeeds. -/
def groupMessage (st : ServerState) (sid : String) (uname : Option String)
    (groupName text msgId : String) (createOk : Bool) : HR :=
  if falsyS uname then ⟨st, [⟨.sock sid, "error"⟩], false⟩ else
  let fromU := uname.getD ""
  if groupName == "" || text == "" then ⟨st, [⟨.sock sid, "error"⟩], false⟩ else
  let roomName := jsTrim groupName
  if !mapHas st.rooms roomName ||
      !setHas ((mapGet st.rooms roomName).getD []) sid then
    ⟨st, [⟨.sock sid, "error"⟩], false⟩ else
  let groupId := mapGet st.groupIds roomName
  let totalMembers := ((mapGet st.rooms roomName).getD []).length
  if createOk then
    let doc : DbMessage :=
      { messageId := msgId, fromUser := fromU, toUser := none,
        groupId := groupId, groupName := some roomName, chatType := "group",
        text := jsTrim text, status := "sent", deliveredTo := [], readBy := [],
        deliveredAt := none, readAt := none }
    let entry : TrackEntry :=
      { fromUser := fromU, toUser := none, groupId := groupId,
        groupName := some roomName, status := "sent", chatType := "group",
        deliveredTo := [], readBy := [], totalMembers := totalMembers,
        deliveredAt := none, readAt := none }
    ⟨{ st with db := st.db ++ [doc],
               messageStatus := mapSet st.messageStatus msgId entry },
      [⟨.room (groupId.getD ""), "groupMessage"⟩], false⟩
  else ⟨st, [⟨.sock sid, "error"⟩], false⟩

/-- Membership test of the acting user in the group a message belongs to
(server.js lines 644-648 and 766-770): groupMembers.has on an undefined
groupId is false, so a group record without an id silently fails. -/
def memberOfDoc (st : ServerState) (doc : DbMessage) (u : String) : Bool :=
  match doc.groupId with
  | none => false
  | some gid =>
    match mapGet st.groupMembers gid with
    | none => false
    | some ms => setHas ms u

/-- In-memory phase of the message_delivered handler (server.js lines
684-696), as a function of the messageStatus map: a private entry gets
status delivered and a fresh deliveredAt; a group entry gets the receiver
added to its deliveredTo set, status unconditionally overwritten to
delivered, and deliveredAt set on first delivery only. -/
def deliveredMemMap (m : List (String × TrackEntry)) (msgId receiver : String)
    (now : Nat) : List (String × TrackEntry) :=
  match mapGet m msgId with
  | none => m
  | some info =>
    if info.chatType == "private" then
      mapSet m msgId { info with status := "delivered", deliveredAt := some now }
    else if info.chatType == "group" then
      let dAt := if info.deliveredAt.isNone then some now else info.deliveredAt
      mapSet m msgId
        { info with deliveredTo := setAdd info.deliveredTo receiver,
                    status := "delivered", deliveredAt := dAt }
    else m

/-- In-memory phase of the message_read handler (server.js lines 817-830):
a private entry gets status read; a group entry gets the reader added to
its readBy set and status read exactly when the size of the grown set
equals the totalMembers snapshot stored at send time. -/
def readMemMap (m : List (String × TrackEntry)) (msgId reader : String)
    (now : Nat) : List (String × TrackEntry) :=
  match mapGet m msgId with
  | none => m
  | some info =>
    if info.chatType == "private" then
      mapSet m msgId { info with status := "read", readAt := some now }
    else if info.chatType == "group" then
      let rb := setAdd info.readBy reader
      let info1 := if rb.length == info.totalMembers then
          { info with readBy := rb, status := "read", readAt := some now }
        else { info with readBy := rb }
      mapSet m msgId info1
    else m

/-- Persistence phase of the message_delivered handler (server.js lines
651-681): a private record gets status and deliveredAt overwritten; a
group record gets the receiver union-added to deliveredTo and status
overwritten, skipped entirely when the receiver is already recorded.  A
failing write yields the error case carrying the store as it stood when
the write was issued. -/
def deliveredDbStep (st : ServerState) (msgId receiver : String) (now : Nat)
    (doc : DbMessage) (updOk : Bool) :
    Except (List DbMessage) (List DbMessage) :=
  if doc.chatType == "private" then
    if updOk then
      .ok (dbUpdate st.db msgId
        (fun d => { d with status := "delivered", deliveredAt := some now }))
    else .error st.db
  else if doc.chatType == "group" then
    if !doc.deliveredTo.contains receiver then
      if updOk then
        .ok (dbUpdate st.db msgId
          (fun d => { d with status := "delivered",
                             deliveredTo := setAdd d.deliveredTo receiver }))
      else .error st.db
    else .ok st.db
  else .ok st.db

/-- Continuation of the message_delivered handler after the persistence
phase (server.js lines 678-721): on a persistence failure only the store
value is kept and nothing further happens (console logging only); on
success the in-memory phase runs and the original sender, if online, is
notified. -/
def deliveredFinish (st : ServerState) (msgId receiver fromArg : String)
    (now : Nat) (doc : DbMessage) :
    Except (List DbMessage) (List DbMessage) → HR
  | .error dbE => ⟨{ st with db := dbE }, [], false⟩
  | .ok db1 =>
    let ms2 := deliveredMemMap st.messageStatus msgId receiver now
    let st2 := { st with db := db1, messageStatus := ms2 }
    let ems := match mapGet st2.userSocketMap fromArg with
      | none => []
      | some senderSid =>
        if doc.chatType == "private" then
          [(⟨.sock senderSid, "messageDelivered"⟩ : Emit)]
        else if doc.chatType == "group" then
          [(⟨.sock senderSid, "messageDelivered"⟩ : Emit)]
        else []
    ⟨st2, ems, false⟩

/-- Event message_delivered (server.js lines 609-721).  The uname argument
is the socket.username property of the acknowledging socket; updOk tells
whether the awaited Message.updateOne call succeeds (the catch on lines
678-681 only logs and returns, emitting nothing). -/
def msgDelivered (st : ServerState) (sid : String) (uname : Option String)
    (msgId fromArg : String) (updOk : Bool) (now : Nat) : HR :=
  if falsyS uname then ⟨st, [], false⟩ else
  let receiver := uname.getD ""
  if msgId == "" || fromArg == "" then ⟨st, [], false⟩ else
  match dbFind st.db msgId with
  | none => ⟨st, [], false⟩
  | some doc =>
    if doc.chatType == "private" &&
        (doc.toUser != some receiver || doc.fromUser != fromArg) then
      ⟨st, [], false⟩
    else if doc.chatType == "group" && !memberOfDoc st doc receiver then
      ⟨st, [], false⟩
    else
      deliveredFinish st msgId receiver fromArg now doc
        (deliveredDbStep st msgId receiver now doc updOk)

/-- Persistence phase of the message_read handler (server.js lines
773-811).  updOk1 and updOk2 tell whether the first and second awaited
Message.updateOne calls succeed; in the group path the first call persists
the readBy addition before the second one persists the aggregate status,
so a failure of the second call leaves the readBy addition durably applied
(carried in the error value).  The re-lookup of the updated record always
succeeds because the record just updated keeps its messageId; the
unreachable none branch mirrors the TypeError a null lookup would raise. -/
def readDbStep (st : ServerState) (msgId reader : String) (now : Nat)
    (doc : DbMessage) (updOk1 updOk2 : Bool) :
    Except (List DbMessage) (Option (List DbMessage)) :=
  if doc.chatType == "private" then
    if updOk1 then
      .ok (some (dbUpdate st.db msgId
        (fun d => { d with status := "read", readAt := some now })))
    else .error st.db
  else if doc.chatType == "group" then
    if !doc.readBy.contains reader then
      if updOk1 then
        let db1 := dbUpdate st.db msgId
          (fun d => { d with readBy := setAdd d.readBy reader })
        match dbFind db1 msgId with
        | none => .ok none
        | some updatedDoc =>
          let totalMembers := match mapGet st.messageStatus msgId with
            | some info => info.totalMembers
            | none => updatedDoc.readBy.length
          if updatedDoc.readBy.length == totalMembers then
            if updOk2 then
              .ok (some (dbUpdate db1 msgId
                (fun d => { d with status := "read", readAt := some now })))
            else .error db1
          else .ok (some db1)
      else .error st.db
    else .ok (some st.db)
  else .ok (some st.db)

/-- Continuation of the message_read handler after the persistence phase
(server.js lines 812-855): on a persistence failure only the store value
is kept (console logging only); the ok-none case mirrors the TypeError of
the unreachable null re-lookup; on success the in-memory phase runs and
the original sender, if online, is notified. -/
def readFinish (st : ServerState) (msgId reader fromArg : String)
    (now : Nat) (doc : DbMessage) :
    Except (List DbMessage) (Option (List DbMessage)) → HR
  | .error dbE => ⟨{ st with db := dbE }, [], false⟩
  | .ok none => ⟨st, [], true⟩
  | .ok (some db1) =>
    let ms2 := readMemMap st.messageStatus msgId reader now
    let st2 := { st with db := db1, messageStatus := ms2 }
    let ems := match mapGet st2.userSocketMap fromArg with
      | none => []
      | some senderSid =>
        if doc.chatType == "private" then
          [(⟨.sock senderSid, "messageRead"⟩ : Emit)]
        else if doc.chatType == "group" then
          [(⟨.sock senderSid, "messageRead"⟩ : Emit)]
        else []
    ⟨st2, ems, false⟩

/-- Event message_read (server.js lines 731-855).  The uname argument is
the socket.username property of the acknowledging socket; the catch on
lines 812-815 only logs and returns, emitting nothing. -/
def msgRead (st : ServerState) (sid : String) (uname : Option String)
    (msgId fromArg : String) (updOk1 updOk2 : Bool) (now : Nat) : HR :=
  if falsyS uname then ⟨st, [], false⟩ else
  let reader := uname.getD ""
  if msgId == "" || fromArg == "" then ⟨st, [], false⟩ else
  match dbFind st.db msgId with
  | none => ⟨st, [], false⟩
  | some doc =>
    if doc.chatType == "private" &&
        (doc.toUser != some reader || doc.fromUser != fromArg) then
      ⟨st, [], false⟩
    else if doc.chatType == "group" && !memberOfDoc st doc reader then
      ⟨st, [], false⟩
    else
      readFinish st msgId reader fromArg now doc
        (readDbStep st msgId reader now doc updOk1 updOk2)

/-- One step of the per-group sweep of the disconnect handler (server.js
lines 870-895), folded over the snapshot of the rooms of the socket. -/
def discStep (sid username : String) (acc : ServerState × List Emit)
    (groupName : String) : ServerState × List Emit :=
  let st := acc.1
  if mapHas st.rooms groupName then
    let gid := mapGet st.groupIds groupName
    let rs := setDel ((mapGet st.rooms groupName).getD []) sid
    let st1 := { st with rooms := mapSet st.rooms groupName rs }
    let st2 := match gid with
      | some g =>
        if g != "" && mapHas st1.groupMembers g then
          let gm := setDel ((mapGet st1.groupMembers g).getD []) username
          { st1 with groupMembers := mapSet st1.groupMembers g gm }
        else st1
      | none => st1
    let ems := acc.2 ++ [⟨.room groupName, "userLeftGroup"⟩]
    if ((mapGet st2.rooms groupName).getD []).length == 0 then
      let st3 := { st2 with rooms := mapDel st2.rooms groupName }
      let st4 := match gid with
        | some g =>
          if g != "" then
            { st3 with groupIds := mapDel st3.groupIds groupName,
                       groupMembers := mapDel st3.groupMembers g }
          else st3
        | none => st3
      (st4, ems)
    else (st2, ems)
  else acc

/-- Event disconnect (server.js lines 861-917). -/
def disconnect (st : ServerState) (sid : String) : HR :=
  match mapGet st.socketUserMap sid with
  | none => ⟨st, [], false⟩
  | some username =>
    let userGroups := (mapGet st.userRooms sid).getD []
    let acc := userGroups.foldl (discStep sid username) (st, [])
    let st1 := { acc.1 with userRooms := mapDel acc.1.userRooms sid }
    let st2 := { st1 with
      userSocketMap := mapDel st1.userSocketMap username,
      socketUserMap := mapDel st1.socketUserMap sid }
    ⟨st2,
      acc.2 ++ [⟨.all, "userList"⟩, ⟨.all, "groupList"⟩, ⟨.all, "userStatus"⟩],
      false⟩

/-- One inbound event together with everything the handler reads besides
the server state: the acting socket id, the socket.username property where
the handler uses it, the payload fields, freshly generated identifiers and
timestamps, and the outcome of each awaited persistence call. -/
inductive Op where
  | opRegister (sid username : String)
  | opPrivateMessage (sid : String) (uname : Option String)
      (toUser text msgId : String) (createOk : Bool)
  | opJoinGroup (sid : String) (uname : Option String)
      (groupName freshId : String)
  | opLeaveGroup (sid : String) (uname : Option String) (groupName : String)
  | opAddUserToGroup (sid : String) (uname : Option String)
      (groupName target : String)
  | opGroupMessage (sid : String) (uname : Option String)
      (groupName text msgId : String) (createOk : Bool)
  | opMsgDelivered (sid : String) (uname : Option String)
      (msgId fromArg : String) (updOk : Bool) (now : Nat)
  | opMsgRead (sid : String) (uname : Option String)
      (msgId fromArg : String) (updOk1 updOk2 : Bool) (now : Nat)
  | opDisconnect (sid : String)

/-- Dispatch of one event to its handler. -/
def applyOp (st : ServerState) : Op → HR
  | .opRegister sid u => register st sid u
  | .opPrivateMessage sid un toU tx mid ok => privateMessage st sid un toU tx mid ok
  | .opJoinGroup sid un g fid => joinGroup st sid un g fid
  | .opLeaveGroup sid un g => leaveGroup st sid un g
  | .opAddUserToGroup sid un g t => addUserToGroup st sid un g t
  | .opGroupMessage sid un g tx mid ok => groupMessage st sid un g tx mid ok
  | .opMsgDelivered sid un mid fa ok now => msgDelivered st sid un mid fa ok now
  | .opMsgRead sid un mid fa ok1 ok2 now => msgRead st sid un mid fa ok1 ok2 now
  | .opDisconnect sid => disconnect st sid

/-- State reached from the empty initial state after a sequence of events. -/
def runOps (ops : List Op) : ServerState :=
  ops.foldl (fun st op => (applyOp st op).st) st0

/-- Keys of an association list are pairwise distinct. -/
def keysNodup {α : Type} (m : List (String × α)) : Prop :=
  (m.map Prod.fst).Nodup

/-- Forward registry consistency (every session-to-identity binding is
mirrored in the identity-to-session map) together with duplicate-freeness
of both maps.  This is the inductive strengthening behind claim C9. -/
def RegInvAux (st : ServerState) : Prop :=
  (∀ s u, mapGet st.socketUserMap s = some u →
    mapGet st.userSocketMap u = some s)
  ∧ keysNodup st.socketUserMap ∧ keysNodup st.userSocketMap

/-- Tracker invariant: a group entry whose deliveredTo set is non-empty is
at least delivered (its stored status is delivered or read). -/
def MsInv (m : List (String × TrackEntry)) : Prop :=
  ∀ mid info, mapGet m mid = some info → info.chatType = "group" →
    info.deliveredTo ≠ [] → info.status = "delivered" ∨ info.status = "read"

/-- Concrete private message record used by the concrete scenarios: alice
sent message p1 to bob, not yet delivered or read. -/
def wDocP : DbMessage :=
  { messageId := "p1", fromUser := "alice", toUser := some "bob",
    groupId := none, groupName := none, chatType := "private",
    text := "hi", status := "sent", deliveredTo := [], readBy := [],
    deliveredAt := none, readAt := none }

/-- Tracker entry matching wDocP. -/
def wEntryP : TrackEntry :=
  { fromUser := "alice", toUser := some "bob", groupId := none,
    groupName := none, status := "sent", chatType := "private",
    deliveredTo := [], readBy := [], totalMembers := 0,
    deliveredAt := none, readAt := none }

/-- Concrete state: alice on socket s1 and bob on socket s2 are registered
and the private message p1 from alice to bob is in flight. -/
def wStP : ServerState :=
  { userSocketMap := [("alice", "s1"), ("bob", "s2")],
    socketUserMap := [("s1", "alice"), ("s2", "bob")],
    rooms := [], userRooms := [], groupIds := [], groupMembers := [],
    messageStatus := [("p1", wEntryP)], db := [wDocP] }

/-- Concrete group message record: alice sent m1 to group g1 (name team). -/
def wDocG : DbMessage :=
  { messageId := "m1", fromUser := "alice", toUser := none,
    groupId := some "g1", groupName := some "team", chatType := "group",
    text := "hi", status := "sent", deliveredTo := [], readBy := [],
    deliveredAt := none, readAt := none }

/-- Tracker entry matching wDocG with a send-time snapshot of two
recipients. -/
def wEntryG : TrackEntry :=
  { fromUser := "alice", toUser := none, groupId := some "g1",
    groupName := some "team", status := "sent", chatType := "group",
    deliveredTo := [], readBy := [], totalMembers := 2,
    deliveredAt := none, readAt := none }

/-- Concrete state: alice and bob registered, both in group team (id g1),
group message m1 from alice in flight with a snapshot of 2. -/
def wStG : ServerState :=
  { userSocketMap := [("alice", "s1"), ("bob", "s2")],
    socketUserMap := [("s1", "alice"), ("s2", "bob")],
    rooms := [("team", ["s1", "s2"])],
    userRooms := [("s1", ["team"]), ("s2", ["team"])],
    groupIds := [("team", "g1")],
    groupMembers := [("g1", ["alice", "bob"])],
    messageStatus := [("m1", wEntryG)], db := [wDocG] }

/-- Group message record for the single-member scenario. -/
def wDocG1 : DbMessage :=
  { messageId := "m2", fromUser := "alice", toUser := none,
    groupId := some "g1", groupName := some "team", chatType := "group",
    text := "yo", status := "sent", deliveredTo := [], readBy := [],
    deliveredAt := none, readAt := none }

/-- Tracker entry matching wDocG1 with a snapshot of one recipient. -/
def wEntryG1 : TrackEntry :=
  { fromUser := "alice", toUser := none, groupId := some "g1",
    groupName := some "team", status := "sent", chatType := "group",
    deliveredTo := [], readBy := [], totalMembers := 1,
    deliveredAt := none, readAt := none }

/-- Concrete state: alice alone in group team, group message m2 in flight
with a snapshot of 1. -/
def wStG1 : ServerState :=
  { userSocketMap := [("alice", "s1")],
    socketUserMap := [("s1", "alice")],
    rooms := [("team", ["s1"])],
    userRooms := [("s1", ["team"])],
    groupIds := [("team", "g1")],
    groupMembers := [("g1", ["alice"])],
    messageStatus := [("m2", wEntryG1)], db := [wDocG1] }

/-- Event sequence: alice and bob register, alice sends bob a private
message, bob acknowledges read. -/
def wOpsC1pre : List Op :=
  [.opRegister "s1" "alice", .opRegister "s2" "bob",
   .opPrivateMessage "s1" (some "alice") "bob" "hi" "m1" true,
   .opMsgRead "s2" (some "bob") "m1" "alice" true true 20]

/-- wOpsC1pre followed by a late delivery acknowledgment for the already
read message. -/
def wOpsC1 : List Op :=
  wOpsC1pre ++ [.opMsgDelivered "s2" (some "bob") "m1" "alice" true 30]

/-- Event sequence: alice and bob register and alice sends bob a private
message; the acknowledgment events are appended in varying orders. -/
def wOpsC2 : List Op :=
  [.opRegister "s1" "alice", .opRegister "s2" "bob",
   .opPrivateMessage "s1" (some "alice") "bob" "hi" "m1" true]

/-- Delivery acknowledgment event of the C2 scenario. -/
def wOpC2d : Op := .opMsgDelivered "s2" (some "bob") "m1" "alice" true 10

/-- Read acknowledgment event of the C2 scenario. -/
def wOpC2r : Op := .opMsgRead "s2" (some "bob") "m1" "alice" true true 20

/-- Event sequence: alice registers and creates group team (id g1). -/
def wOpsC4 : List Op :=
  [.opRegister "s1" "alice", .opJoinGroup "s1" (some "alice") "team" "g1"]

/-- Event sequence: alice registers, creates group team, sends group
message m2 to its sole member. -/
def wOpsC7 : List Op :=
  [.opRegister "s1" "alice", .opJoinGroup "s1" (some "alice") "team" "g1",
   .opGroupMessage "s1" (some "alice") "team" "yo" "m2" true]

/-- Event sequence: the same socket registers twice under two names. -/
def wOpsC9 : List Op :=
  [.opRegister "s1" "alice", .opRegister "s1" "bob"]

/-- Event sequence: alice and bob form group team, alice sends m3 with a
snapshot of 2, carol joins afterwards, then bob and carol acknowledge
read. -/
def wOpsC10 : List Op :=
  [.opRegister "s1" "alice", .opRegister "s2" "bob",
   .opRegister "s3" "carol",
   .opJoinGroup "s1" (some "alice") "team" "g1",
   .opJoinGroup "s2" (some "bob") "team" "gX",
   .opGroupMessage "s1" (some "alice") "team" "hi" "m3" true,
   .opJoinGroup "s3" (some "carol") "team" "gY",
   .opMsgRead "s2" (some "bob") "m3" "alice" true true 10,
   .opMsgRead "s3" (some "carol") "m3" "alice" true true 11]

theorem mapGet_mapSet_self {α : Type} (m : List (String × α)) (k : String)
    (v : α) : mapGet (mapSet m k v) k = some v := by
  induction m with
  | nil => simp [mapSet, mapGet]
  | cons p r ih =>
    obtain ⟨k', v'⟩ := p
    by_cases h : k' = k
    · simp [mapSet, mapGet, h]
    · simp [mapSet, mapGet, h, ih]

theorem mapGet_mapSet_ne {α : Type} (m : List (String × α)) (k j : String)
    (v : α) (h : j ≠ k) : mapGet (mapSet m k v) j = mapGet m j := by
  have hkj : ¬(k = j) := fun hh => h hh.symm
  induction m with
  | nil => simp [mapSet, mapGet, hkj]
  | cons p r ih =>
    obtain ⟨k', v'⟩ := p
    by_cases hk : k' = k
    · subst hk
      simp [mapSet, mapGet, hkj]
    · by_cases hj : k' = j
      · subst hj
        simp [mapSet, mapGet, hk]
      · simp [mapSet, mapGet, hk, hj, ih]

theorem mapGet_mapDel_ne {α : Type} (m : List (String × α)) (k j : String)
    (h : j ≠ k) : mapGet (mapDel m k) j = mapGet m j := by
  have hkj : ¬(k = j) := fun hh => h hh.symm
  induction m with
  | nil => simp [mapDel]
  | cons p r ih =>
    obtain ⟨k', v'⟩ := p
    by_cases hk : k' = k
    · subst hk
      simp [mapDel, mapGet, hkj]
    · by_cases hj : k' = j
      · subst hj
        simp [mapDel, mapGet, hk]
      · simp [mapDel, mapGet, hk, hj, ih]

theorem mapGet_eq_none_of_not_mem {α : Type} (m : List (String × α))
    (k : String) (h : k ∉ m.map Prod.fst) : mapGet m k = none := by
  induction m with
  | nil => rfl
  | cons p r ih =>
    obtain ⟨k', v'⟩ := p
    simp only [List.map_cons, List.mem_cons, not_or] at h
    have hne : ¬(k' = k) := fun hh => h.1 hh.symm
    simp [mapGet, hne, ih h.2]

theorem mapGet_ne_none_of_mem {α : Type} (m : List (String × α))
    (k : String) (h : k ∈ m.map Prod.fst) : mapGet m k ≠ none := by
  induction m with
  | nil => simp at h
  | cons p r ih =>
    obtain ⟨k', v'⟩ := p
    by_cases hk : k' = k
    · simp [mapGet, hk]
    · simp only [List.map_cons, List.mem_cons] at h
      rcases h with h | h
      · exact absurd h.symm hk
      · simp [mapGet, hk, ih h]

theorem mapGet_mapDel_self {α : Type} (m : List (String × α)) (k : String)
    (h : keysNodup m) : mapGet (mapDel m k) k = none := by
  induction m with
  | nil => rfl
  | cons p r ih =>
    obtain ⟨k', v'⟩ := p
    simp only [keysNodup, List.map_cons, List.nodup_cons] at h
    by_cases hk : k' = k
    · subst hk
      simp [mapDel, mapGet_eq_none_of_not_mem r k' h.1]
    · simp [mapDel, mapGet, hk, ih h.2]

theorem keys_mapSet_of_none {α : Type} (m : List (String × α)) (k : String)
    (v : α) (h : mapGet m k = none) :
    (mapSet m k v).map Prod.fst = m.map Prod.fst ++ [k] := by
  induction m with
  | nil => simp [mapSet]
  | cons p r ih =>
    obtain ⟨k', v'⟩ := p
    by_cases hk : k' = k
    · simp [mapGet, hk] at h
    · have h2 : mapGet r k = none := by simpa [mapGet, hk] using h
      simp [mapSet, hk, ih h2]

theorem keys_mapSet_of_some {α : Type} (m : List (String × α)) (k : String)
    (v w : α) (h : mapGet m k = some w) :
    (mapSet m k v).map Prod.fst = m.map Prod.fst := by
  induction m with
  | nil => simp [mapGet] at h
  | cons p r ih =>
    obtain ⟨k', v'⟩ := p
    by_cases hk : k' = k
    · simp [mapSet, hk]
    · have h2 : mapGet r k = some w := by simpa [mapGet, hk] using h
      simp [mapSet, hk, ih h2]

theorem keysNodup_mapSet {α : Type} (m : List (String × α)) (k : String)
    (v : α) (h : keysNodup m) : keysNodup (mapSet m k v) := by
  cases hg : mapGet m k with
  | none =>
    unfold keysNodup
    rw [keys_mapSet_of_none m k v hg]
    rw [List.nodup_append]
    refine ⟨h, List.nodup_singleton k, ?_⟩
    intro a ha hb
    simp only [List.mem_singleton] at hb
    subst hb
    exact mapGet_ne_none_of_mem m a ha hg
  | some w =>
    unfold keysNodup
    rw [keys_mapSet_of_some m k v w hg]
    exact h

theorem keys_mapDel_sublist {α : Type} (m : List (String × α)) (k : String) :
    List.Sublist ((mapDel m k).map Prod.fst) (m.map Prod.fst) := by
  induction m with
  | nil => simp [mapDel]
  | cons p r ih =>
    obtain ⟨k', v'⟩ := p
    by_cases hk : k' = k
    · subst hk
      simp [mapDel]
    · simpa [mapDel, hk] using List.Sublist.cons₂ k' ih

theorem keysNodup_mapDel {α : Type} (m : List (String × α)) (k : String)
    (h : keysNodup m) : keysNodup (mapDel m k) :=
  List.Nodup.sublist (keys_mapDel_sublist m k) h

theorem mapSet_idem {α : Type} (m : List (String × α)) (k : String) (v : α) :
    mapSet (mapSet m k v) k v = mapSet m k v := by
  induction m with
  | nil => simp [mapSet]
  | cons p r ih =>
    obtain ⟨k', v'⟩ := p
    by_cases hk : k' = k
    · simp [mapSet, hk]
    · simp [mapSet, hk, ih]

theorem setAdd_contains (s : List String) (x : String) :
    (setAdd s x).contains x = true := by
  unfold setAdd
  split
  · next h => exact h
  · simp

theorem setAdd_idem (s : List String) (x : String) :
    setAdd (setAdd s x) x = setAdd s x := by
  have h := setAdd_contains s x
  generalize hy : setAdd s x = y at h ⊢
  unfold setAdd
  rw [h]
  simp

theorem dbFind_dbUpdate (db : List DbMessage) (mid : String)
    (f : DbMessage → DbMessage) (hf : ∀ d, (f d).messageId = d.messageId) :
    dbFind (dbUpdate db mid f) mid = (dbFind db mid).map f := by
  induction db with
  | nil => rfl
  | cons d r ih =>
    by_cases h : d.messageId = mid
    · simp [dbFind, dbUpdate, h, hf]
    · simp [dbFind, dbUpdate, h, ih]

theorem dbUpdate_dbUpdate (db : List DbMessage) (mid : String)
    (f g : DbMessage → DbMessage) (hf : ∀ d, (f d).messageId = d.messageId) :
    dbUpdate (dbUpdate db mid f) mid g = dbUpdate db mid (fun d => g (f d)) := by
  induction db with
  | nil => rfl
  | cons d r ih =>
    by_cases h : d.messageId = mid
    · simp [dbUpdate, h, hf, ih]
    · simp [dbUpdate, h, ih]

theorem dbUpdate_congr (db : List DbMessage) (mid : String)
    (f g : DbMessage → DbMessage) (h : ∀ d, f d = g d) :
    dbUpdate db mid f = dbUpdate db mid g := by
  induction db with
  | nil => rfl
  | cons d r ih =>
    by_cases hd : d.messageId = mid
    · simp [dbUpdate, hd, h, ih]
    · simp [dbUpdate, hd, ih]

theorem deliveredMemMap_idem (m : List (String × TrackEntry))
    (msgId receiver : String) (now : Nat) :
    deliveredMemMap (deliveredMemMap m msgId receiver now) msgId receiver now
      = deliveredMemMap m msgId receiver now := by
  cases hg : mapGet m msgId with
  | none =>
    have hstep : deliveredMemMap m msgId receiver now = m := by
      unfold deliveredMemMap
      rw [hg]
    rw [hstep]
    exact hstep
  | some info =>
    by_cases hp : (info.chatType == "private") = true
    · have hstep : deliveredMemMap m msgId receiver now
          = mapSet m msgId
              { info with status := "delivered", deliveredAt := some now } := by
        unfold deliveredMemMap
        rw [hg]
        simp [hp]
      rw [hstep]
      unfold deliveredMemMap
      rw [mapGet_mapSet_self]
      simp [hp, mapSet_idem]
    · by_cases hgr : (info.chatType == "group") = true
      · have hstep : deliveredMemMap m msgId receiver now
            = mapSet m msgId
                { info with deliveredTo := setAdd info.deliveredTo receiver,
                            status := "delivered",
                            deliveredAt := if info.deliveredAt.isNone then some now
                              else info.deliveredAt } := by
          unfold deliveredMemMap
          rw [hg]
          simp [hp, hgr]
        rw [hstep]
        unfold deliveredMemMap
        rw [mapGet_mapSet_self]
        simp only [hp, hgr]
        cases hda : info.deliveredAt with
        | none => simp [hp, hgr, hda, setAdd_idem, mapSet_idem]
        | some t => simp [hp, hgr, hda, setAdd_idem, mapSet_idem]
      · have hstep : deliveredMemMap m msgId receiver now = m := by
          unfold deliveredMemMap
          rw [hg]
          simp [hp, hgr]
        rw [hstep]
        unfold deliveredMemMap
        rw [hg]
        simp [hp, hgr]

theorem readMemMap_idem (m : List (String × TrackEntry))
    (msgId reader : String) (now : Nat) :
    readMemMap (readMemMap m msgId reader now) msgId reader now
      = readMemMap m msgId reader now := by
  cases hg : mapGet m msgId with
  | none =>
    have hstep : readMemMap m msgId reader now = m := by
      unfold readMemMap
      rw [hg]
    rw [hstep]
    exact hstep
  | some info =>
    by_cases hp : (info.chatType == "private") = true
    · have hstep : readMemMap m msgId reader now
          = mapSet m msgId { info with status := "read", readAt := some now } := by
        unfold readMemMap
        rw [hg]
        simp [hp]
      rw [hstep]
      unfold readMemMap
      rw [mapGet_mapSet_self]
      simp [hp, mapSet_idem]
    · by_cases hgr : (info.chatType == "group") = true
      · by_cases hlen : ((setAdd info.readBy reader).length == info.totalMembers) = true
        · have hstep : readMemMap m msgId reader now
              = mapSet m msgId
                  { info with readBy := setAdd info.readBy reader,
                              status := "read", readAt := some now } := by
            unfold readMemMap
            rw [hg]
            simp [hp, hgr, hlen]
          rw [hstep]
          unfold readMemMap
          rw [mapGet_mapSet_self]
          simp [hp, hgr, setAdd_idem, hlen, mapSet_idem]
        · have hstep : readMemMap m msgId reader now
              = mapSet m msgId { info with readBy := setAdd info.readBy reader } := by
            unfold readMemMap
            rw [hg]
            simp [hp, hgr, hlen]
          rw [hstep]
          unfold readMemMap
          rw [mapGet_mapSet_self]
          simp [hp, hgr, setAdd_idem, hlen, mapSet_idem]
      · have hstep : readMemMap m msgId reader now = m := by
          unfold readMemMap
          rw [hg]
          simp [hp, hgr]
        rw [hstep]
        unfold readMemMap
        rw [hg]
        simp [hp, hgr]

theorem register_msFrame (st : ServerState) (sid u : String) :
    (register st sid u).st.messageStatus = st.messageStatus := by
  unfold register
  repeat' split
  all_goals rfl

theorem privateMessage_regMaps (st : ServerState) (sid : String)
    (un : Option String) (toU tx mid : String) (ok : Bool) :
    (privateMessage st sid un toU tx mid ok).st.userSocketMap = st.userSocketMap
    ∧ (privateMessage st sid un toU tx mid ok).st.socketUserMap
        = st.socketUserMap := by
  unfold privateMessage
  repeat' split
  all_goals exact ⟨rfl, rfl⟩

theorem joinGroup_regMaps (st : ServerState) (sid : String)
    (un : Option String) (g f : String) :
    (joinGroup st sid un g f).st.userSocketMap = st.userSocketMap
    ∧ (joinGroup st sid un g f).st.socketUserMap = st.socketUserMap
    ∧ (joinGroup st sid un g f).st.messageStatus = st.messageStatus := by
  simp only [joinGroup]
  repeat' split
  all_goals exact ⟨rfl, rfl, rfl⟩

theorem leaveGroup_regMaps (st : ServerState) (sid : String)
    (un : Option String) (g : String) :
    (leaveGroup st sid un g).st.userSocketMap = st.userSocketMap
    ∧ (leaveGroup st sid un g).st.socketUserMap = st.socketUserMap
    ∧ (leaveGroup st sid un g).st.messageStatus = st.messageStatus := by
  simp only [leaveGroup]
  repeat' split
  all_goals exact ⟨rfl, rfl, rfl⟩

theorem addUserToGroup_regMaps (st : ServerState) (sid : String)
    (un : Option String) (g t : String) :
    (addUserToGroup st sid un g t).st.userSocketMap = st.userSocketMap
    ∧ (addUserToGroup st sid un g t).st.socketUserMap = st.socketUserMap
    ∧ (addUserToGroup st sid un g t).st.messageStatus = st.messageStatus := by
  simp only [addUserToGroup]
  repeat' split
  all_goals exact ⟨rfl, rfl, rfl⟩

theorem groupMessage_regMaps (st : ServerState) (sid : String)
    (un : Option String) (g tx mid : String) (ok : Bool) :
    (groupMessage st sid un g tx mid ok).st.userSocketMap = st.userSocketMap
    ∧ (groupMessage st sid un g tx mid ok).st.socketUserMap
        = st.socketUserMap := by
  simp only [groupMessage]
  repeat' split
  all_goals exact ⟨rfl, rfl⟩

theorem deliveredFinish_regMaps (st : ServerState)
    (msgId receiver fromArg : String) (now : Nat) (doc : DbMessage)
    (e : Except (List DbMessage) (List DbMessage)) :
    (deliveredFinish st msgId receiver fromArg now doc e).st.userSocketMap
        = st.userSocketMap
    ∧ (deliveredFinish st msgId receiver fromArg now doc e).st.socketUserMap
        = st.socketUserMap := by
  cases e <;> exact ⟨rfl, rfl⟩

theorem readFinish_regMaps (st : ServerState)
    (msgId reader fromArg : String) (now : Nat) (doc : DbMessage)
    (e : Except (List DbMessage) (Option (List DbMessage))) :
    (readFinish st msgId reader fromArg now doc e).st.userSocketMap
        = st.userSocketMap
    ∧ (readFinish st msgId reader fromArg now doc e).st.socketUserMap
        = st.socketUserMap := by
  cases e with
  | error dbE => exact ⟨rfl, rfl⟩
  | ok o => cases o <;> exact ⟨rfl, rfl⟩

theorem msgDelivered_regMaps (st : ServerState) (sid : String)
    (un : Option String) (mid fa : String) (ok : Bool) (now : Nat) :
    (msgDelivered st sid un mid fa ok now).st.userSocketMap = st.userSocketMap
    ∧ (msgDelivered st sid un mid fa ok now).st.socketUserMap
        = st.socketUserMap := by
  simp only [msgDelivered]
  repeat' split
  all_goals first
    | exact ⟨rfl, rfl⟩
    | exact deliveredFinish_regMaps _ _ _ _ _ _ _

theorem msgRead_regMaps (st : ServerState) (sid : String)
    (un : Option String) (mid fa : String) (ok1 ok2 : Bool) (now : Nat) :
    (msgRead st sid un mid fa ok1 ok2 now).st.userSocketMap = st.userSocketMap
    ∧ (msgRead st sid un mid fa ok1 ok2 now).st.socketUserMap
        = st.socketUserMap := by
  simp only [msgRead]
  repeat' split
  all_goals first
    | exact ⟨rfl, rfl⟩
    | exact readFinish_regMaps _ _ _ _ _ _ _

theorem discStep_frame (sid username : String) (acc : ServerState × List Emit)
    (g : String) :
    (discStep sid username acc g).1.userSocketMap = acc.1.userSocketMap
    ∧ (discStep sid username acc g).1.socketUserMap = acc.1.socketUserMap
    ∧ (discStep sid username acc g).1.messageStatus = acc.1.messageStatus := by
  simp only [discStep]
  repeat' split
  all_goals exact ⟨rfl, rfl, rfl⟩

theorem foldDisc_frame (sid username : String) (gs : List String)
    (acc : ServerState × List Emit) :
    (gs.foldl (discStep sid username) acc).1.userSocketMap = acc.1.userSocketMap
    ∧ (gs.foldl (discStep sid username) acc).1.socketUserMap
        = acc.1.socketUserMap
    ∧ (gs.foldl (discStep sid username) acc).1.messageStatus
        = acc.1.messageStatus := by
  induction gs generalizing acc with
  | nil => exact ⟨rfl, rfl, rfl⟩
  | cons g r ih =>
    have h1 := discStep_frame sid username acc g
    have h2 := ih (discStep sid username acc g)
    simp only [List.foldl_cons]
    exact ⟨h2.1.trans h1.1, h2.2.1.trans h1.2.1, h2.2.2.trans h1.2.2⟩

theorem disconnect_msFrame (st : ServerState) (sid : String) :
    (disconnect st sid).st.messageStatus = st.messageStatus := by
  unfold disconnect
  cases hg : mapGet st.socketUserMap sid with
  | none => rfl
  | some u =>
    have h := foldDisc_frame sid u ((mapGet st.userRooms sid).getD []) (st, [])
    exact h.2.2

theorem regInvAux_of_eq (st1 st2 : ServerState)
    (h1 : st2.userSocketMap = st1.userSocketMap)
    (h2 : st2.socketUserMap = st1.socketUserMap)
    (h : RegInvAux st1) : RegInvAux st2 := by
  unfold RegInvAux at *
  rw [h1, h2]
  exact h

theorem regInvAux_register (st : ServerState) (sid u : String)
    (h : RegInvAux st) : RegInvAux (register st sid u).st := by
  unfold register
  split
  · exact h
  split
  · exact h
  · next hdup =>
    refine ⟨?_, keysNodup_mapSet _ _ _ h.2.1, keysNodup_mapSet _ _ _ h.2.2⟩
    intro s' u' hs
    by_cases hss : s' = sid
    · subst hss
      rw [mapGet_mapSet_self] at hs
      cases hs
      exact mapGet_mapSet_self _ _ _
    · rw [mapGet_mapSet_ne _ _ _ _ hss] at hs
      by_cases huu : u' = u
      · subst huu
        have hx := h.1 s' u' hs
        exact absurd (by simp [mapHas, hx]) hdup
      · rw [mapGet_mapSet_ne _ _ _ _ huu]
        exact h.1 s' u' hs

theorem regInvAux_disconnect (st : ServerState) (sid : String)
    (h : RegInvAux st) : RegInvAux (disconnect st sid).st := by
  cases hg : mapGet st.socketUserMap sid with
  | none =>
    have hid : (disconnect st sid).st = st := by
      unfold disconnect
      rw [hg]
    rw [hid]
    exact h
  | some username =>
    have hfold := foldDisc_frame sid username
      ((mapGet st.userRooms sid).getD []) (st, [])
    have hu : (disconnect st sid).st.userSocketMap
        = mapDel st.userSocketMap username := by
      unfold disconnect
      rw [hg]
      exact congrArg (fun m => mapDel m username) hfold.1
    have hs : (disconnect st sid).st.socketUserMap
        = mapDel st.socketUserMap sid := by
      unfold disconnect
      rw [hg]
      exact congrArg (fun m => mapDel m sid) hfold.2.1
    refine ⟨?_, ?_, ?_⟩
    · intro s' u' hs'
      rw [hs] at hs'
      rw [hu]
      by_cases hss : s' = sid
      · subst hss
        rw [mapGet_mapDel_self _ _ h.2.1] at hs'
        cases hs'
      · rw [mapGet_mapDel_ne _ _ _ hss] at hs'
        have h1 := h.1 s' u' hs'
        by_cases huu : u' = username
        · subst huu
          have h2 := h.1 sid u' hg
          rw [h1] at h2
          cases h2
          exact absurd rfl hss
        · rw [mapGet_mapDel_ne _ _ _ huu]
          exact h1
    · rw [hs]
      exact keysNodup_mapDel _ _ h.2.1
    · rw [hu]
      exact keysNodup_mapDel _ _ h.2.2

theorem regInvAux_applyOp (st : ServerState) (op : Op) (h : RegInvAux st) :
    RegInvAux (applyOp st op).st := by
  cases op with
  | opRegister sid u => exact regInvAux_register st sid u h
  | opPrivateMessage sid un toU tx mid ok =>
    have hf := privateMessage_regMaps st sid un toU tx mid ok
    exact regInvAux_of_eq st _ hf.1 hf.2 h
  | opJoinGroup sid un g fid =>
    have hf := joinGroup_regMaps st sid un g fid
    exact regInvAux_of_eq st _ hf.1 hf.2.1 h
  | opLeaveGroup sid un g =>
    have hf := leaveGroup_regMaps st sid un g
    exact regInvAux_of_eq st _ hf.1 hf.2.1 h
  | opAddUserToGroup sid un g t =>
    have hf := addUserToGroup_regMaps st sid un g t
    exact regInvAux_of_eq st _ hf.1 hf.2.1 h
  | opGroupMessage sid un g tx mid ok =>
    have hf := groupMessage_regMaps st sid un g tx mid ok
    exact regInvAux_of_eq st _ hf.1 hf.2 h
  | opMsgDelivered sid un mid fa ok now =>
    have hf := msgDelivered_regMaps st sid un mid fa ok now
    exact regInvAux_of_eq st _ hf.1 hf.2 h
  | opMsgRead sid un mid fa ok1 ok2 now =>
    have hf := msgRead_regMaps st sid un mid fa ok1 ok2 now
    exact regInvAux_of_eq st _ hf.1 hf.2 h
  | opDisconnect sid => exact regInvAux_disconnect st sid h

theorem regInvAux_foldl (ops : List Op) (st : ServerState) (h : RegInvAux st) :
    RegInvAux (ops.foldl (fun s op => (applyOp s op).st) st) := by
  induction ops generalizing st with
  | nil => exact h
  | cons op r ih => exact ih _ (regInvAux_applyOp st op h)

theorem regInvAux_runOps (ops : List Op) : RegInvAux (runOps ops) := by
  refine regInvAux_foldl ops st0 ⟨?_, ?_, ?_⟩
  · intro s u hsu
    simp [st0, mapGet] at hsu
  · simp [keysNodup, st0]
  · simp [keysNodup, st0]

theorem msInv_mapSet (m : List (String × TrackEntry)) (k : String)
    (e : TrackEntry) (h : MsInv m)
    (he : e.chatType = "group" → e.deliveredTo ≠ [] →
      e.status = "delivered" ∨ e.status = "read") :
    MsInv (mapSet m k e) := by
  intro mid info hget hct hdel
  by_cases hk : mid = k
  · subst hk
    rw [mapGet_mapSet_self] at hget
    cases hget
    exact he hct hdel
  · rw [mapGet_mapSet_ne _ _ _ _ hk] at hget
    exact h mid info hget hct hdel

theorem msInv_deliveredMemMap (m : List (String × TrackEntry))
    (msgId receiver : String) (now : Nat) (h : MsInv m) :
    MsInv (deliveredMemMap m msgId receiver now) := by
  unfold deliveredMemMap
  cases hg : mapGet m msgId with
  | none => exact h
  | some info =>
    by_cases hp : (info.chatType == "private") = true
    · simp only [hp, if_true]
      refine msInv_mapSet m msgId _ h ?_
      intro hct
      have h2 := eq_of_beq hp
      have h3 : info.chatType = "group" := hct
      rw [h3] at h2
      exact absurd h2 (by decide)
    · by_cases hgr : (info.chatType == "group") = true
      · simp only [hp, hgr, if_false, if_true]
        refine msInv_mapSet m msgId _ h ?_
        intro _ _
        exact Or.inl rfl
      · simp only [hp, hgr, if_false]
        exact h

theorem msInv_readMemMap (m : List (String × TrackEntry))
    (msgId reader : String) (now : Nat) (h : MsInv m) :
    MsInv (readMemMap m msgId reader now) := by
  unfold readMemMap
  cases hg : mapGet m msgId with
  | none => exact h
  | some info =>
    by_cases hp : (info.chatType == "private") = true
    · simp only [hp, if_true]
      refine msInv_mapSet m msgId _ h ?_
      intro hct
      have h2 := eq_of_beq hp
      have h3 : info.chatType = "group" := hct
      rw [h3] at h2
      exact absurd h2 (by decide)
    · by_cases hgr : (info.chatType == "group") = true
      · simp only [hp, hgr, if_false, if_true]
        by_cases hlen : ((setAdd info.readBy reader).length == info.totalMembers)
            = true
        · simp only [hlen, if_true]
          refine msInv_mapSet m msgId _ h ?_
          intro _ _
          exact Or.inr rfl
        · simp only [hlen, if_false]
          refine msInv_mapSet m msgId _ h ?_
          intro hct hdel
          exact h msgId info hg hct hdel
      · simp only [hp, hgr, if_false]
        exact h

theorem privateMessage_msCases (st : ServerState) (sid : String)
    (un : Option String) (toU tx mid : String) (ok : Bool) :
    (privateMessage st sid un toU tx mid ok).st.messageStatus
        = st.messageStatus
    ∨ ∃ e : TrackEntry, e.chatType = "private"
        ∧ (privateMessage st sid un toU tx mid ok).st.messageStatus
            = mapSet st.messageStatus mid e := by
  simp only [privateMessage]
  repeat' split
  all_goals first
    | exact Or.inl rfl
    | exact Or.inr ⟨_, rfl, rfl⟩

theorem groupMessage_msCases (st : ServerState) (sid : String)
    (un : Option String) (g tx mid : String) (ok : Bool) :
    (groupMessage st sid un g tx mid ok).st.messageStatus = st.messageStatus
    ∨ ∃ e : TrackEntry, e.deliveredTo = []
        ∧ (groupMessage st sid un g tx mid ok).st.messageStatus
            = mapSet st.messageStatus mid e := by
  simp only [groupMessage]
  repeat' split
  all_goals first
    | exact Or.inl rfl
    | exact Or.inr ⟨_, rfl, rfl⟩

theorem deliveredFinish_msCases (st : ServerState)
    (msgId receiver fromArg : String) (now : Nat) (doc : DbMessage)
    (e : Except (List DbMessage) (List DbMessage)) :
    (deliveredFinish st msgId receiver fromArg now doc e).st.messageStatus
        = st.messageStatus
    ∨ (deliveredFinish st msgId receiver fromArg now doc e).st.messageStatus
        = deliveredMemMap st.messageStatus msgId receiver now := by
  cases e with
  | error dbE => exact Or.inl rfl
  | ok db1 => exact Or.inr rfl

theorem msgDelivered_msCases (st : ServerState) (sid : String)
    (un : Option String) (mid fa : String) (ok : Bool) (now : Nat) :
    (msgDelivered st sid un mid fa ok now).st.messageStatus = st.messageStatus
    ∨ (msgDelivered st sid un mid fa ok now).st.messageStatus
        = deliveredMemMap st.messageStatus mid (un.getD "") now := by
  simp only [msgDelivered]
  repeat' split
  all_goals first
    | exact Or.inl rfl
    | exact deliveredFinish_msCases _ _ _ _ _ _ _

theorem readFinish_msCases (st : ServerState)
    (msgId reader fromArg : String) (now : Nat) (doc : DbMessage)
    (e : Except (List DbMessage) (Option (List DbMessage))) :
    (readFinish st msgId reader fromArg now doc e).st.messageStatus
        = st.messageStatus
    ∨ (readFinish st msgId reader fromArg now doc e).st.messageStatus
        = readMemMap st.messageStatus msgId reader now := by
  cases e with
  | error dbE => exact Or.inl rfl
  | ok o => cases o with
    | none => exact Or.inl rfl
    | some db1 => exact Or.inr rfl

theorem msgRead_msCases (st : ServerState) (sid : String)
    (un : Option String) (mid fa : String) (ok1 ok2 : Bool) (now : Nat) :
    (msgRead st sid un mid fa ok1 ok2 now).st.messageStatus = st.messageStatus
    ∨ (msgRead st sid un mid fa ok1 ok2 now).st.messageStatus
        = readMemMap st.messageStatus mid (un.getD "") now := by
  simp only [msgRead]
  repeat' split
  all_goals first
    | exact Or.inl rfl
    | exact readFinish_msCases _ _ _ _ _ _ _

theorem msInv_of_eq (m1 m2 : List (String × TrackEntry)) (h : m2 = m1)
    (hi : MsInv m1) : MsInv m2 := by
  rw [h]
  exact hi

theorem msInv_applyOp (st : ServerState) (op : Op)
    (h : MsInv st.messageStatus) : MsInv (applyOp st op).st.messageStatus := by
  cases op with
  | opRegister sid u => exact msInv_of_eq _ _ (register_msFrame st sid u) h
  | opPrivateMessage sid un toU tx mid ok =>
    rcases privateMessage_msCases st sid un toU tx mid ok with heq | ⟨e, he, heq⟩
    · exact msInv_of_eq _ _ heq h
    · refine msInv_of_eq _ _ heq ?_
      refine msInv_mapSet _ _ _ h ?_
      intro hct
      rw [he] at hct
      exact absurd hct (by decide)
  | opJoinGroup sid un g fid =>
    exact msInv_of_eq _ _ (joinGroup_regMaps st sid un g fid).2.2 h
  | opLeaveGroup sid un g =>
    exact msInv_of_eq _ _ (leaveGroup_regMaps st sid un g).2.2 h
  | opAddUserToGroup sid un g t =>
    exact msInv_of_eq _ _ (addUserToGroup_regMaps st sid un g t).2.2 h
  | opGroupMessage sid un g tx mid ok =>
    rcases groupMessage_msCases st sid un g tx mid ok with heq | ⟨e, he, heq⟩
    · exact msInv_of_eq _ _ heq h
    · refine msInv_of_eq _ _ heq ?_
      refine msInv_mapSet _ _ _ h ?_
      intro _ hdel
      rw [he] at hdel
      exact absurd rfl hdel
  | opMsgDelivered sid un mid fa ok now =>
    rcases msgDelivered_msCases st sid un mid fa ok now with heq | heq
    · exact msInv_of_eq _ _ heq h
    · exact msInv_of_eq _ _ heq (msInv_deliveredMemMap _ _ _ _ h)
  | opMsgRead sid un mid fa ok1 ok2 now =>
    rcases msgRead_msCases st sid un mid fa ok1 ok2 now with heq | heq
    · exact msInv_of_eq _ _ heq h
    · exact msInv_of_eq _ _ heq (msInv_readMemMap _ _ _ _ h)
  | opDisconnect sid => exact msInv_of_eq _ _ (disconnect_msFrame st sid) h

theorem msInv_foldl (ops : List Op) (st : ServerState)
    (h : MsInv st.messageStatus) :
    MsInv ((ops.foldl (fun s op => (applyOp s op).st) st)).messageStatus := by
  induction ops generalizing st with
  | nil => exact h
  | cons op r ih => exact ih _ (msInv_applyOp st op h)

theorem msInv_runOps (ops : List Op) : MsInv (runOps ops).messageStatus := by
  refine msInv_foldl ops st0 ?_
  intro mid info hget
  simp [st0, mapGet] at hget

theorem msgDelivered_reduce (st : ServerState) (sid : String)
    (receiver msgId fromArg : String) (ok : Bool) (now : Nat)
    (doc : DbMessage)
    (hr : receiver ≠ "") (hm : msgId ≠ "") (hf : fromArg ≠ "")
    (hfind : dbFind st.db msgId = some doc)
    (hv1 : (doc.chatType == "private"
      && (doc.toUser != some receiver || doc.fromUser != fromArg)) = false)
    (hv2 : (doc.chatType == "group" && !memberOfDoc st doc receiver) = false) :
    msgDelivered st sid (some receiver) msgId fromArg ok now
      = deliveredFinish st msgId receiver fromArg now doc
          (deliveredDbStep st msgId receiver now doc ok) := by
  have hfa : falsyS (some receiver) = false := by simp [falsyS, hr]
  have hmm : (msgId == "" || fromArg == "") = false := by simp [hm, hf]
  simp only [msgDelivered, Option.getD_some, hfa, hmm, hfind, hv1, hv2,
    Bool.false_eq_true, if_false]

theorem msgRead_reduce (st : ServerState) (sid : String)
    (reader msgId fromArg : String) (ok1 ok2 : Bool) (now : Nat)
    (doc : DbMessage)
    (hr : reader ≠ "") (hm : msgId ≠ "") (hf : fromArg ≠ "")
    (hfind : dbFind st.db msgId = some doc)
    (hv1 : (doc.chatType == "private"
      && (doc.toUser != some reader || doc.fromUser != fromArg)) = false)
    (hv2 : (doc.chatType == "group" && !memberOfDoc st doc reader) = false) :
    msgRead st sid (some reader) msgId fromArg ok1 ok2 now
      = readFinish st msgId reader fromArg now doc
          (readDbStep st msgId reader now doc ok1 ok2) := by
  have hfa : falsyS (some reader) = false := by simp [falsyS, hr]
  have hmm : (msgId == "" || fromArg == "") = false := by simp [hm, hf]
  simp only [msgRead, Option.getD_some, hfa, hmm, hfind, hv1, hv2,
    Bool.false_eq_true, if_false]

theorem msgDelivered_silent (st : ServerState) (sid : String)
    (receiver msgId fromArg : String) (ok : Bool) (now : Nat)
    (hr : receiver ≠ "") (hm : msgId ≠ "") (hf : fromArg ≠ "")
    (hdrop : dbFind st.db msgId = none
      ∨ ∃ doc, dbFind st.db msgId = some doc
          ∧ ((doc.chatType = "private" ∧ doc.toUser ≠ some receiver)
             ∨ (doc.chatType = "group"
                ∧ memberOfDoc st doc receiver = false))) :
    msgDelivered st sid (some receiver) msgId fromArg ok now
      = ⟨st, [], false⟩ := by
  have hfa : falsyS (some receiver) = false := by simp [falsyS, hr]
  have hmm : (msgId == "" || fromArg == "") = false := by simp [hm, hf]
  rcases hdrop with hnone | ⟨doc, hfind, hcase⟩
  · simp only [msgDelivered, Option.getD_some, hfa, hmm, hnone,
      Bool.false_eq_true, if_false]
  · rcases hcase with ⟨hct, hne⟩ | ⟨hct, hmem⟩
    · have hv1 : (doc.chatType == "private"
          && (doc.toUser != some receiver || doc.fromUser != fromArg))
            = true := by
        rw [hct]
        simp [hne]
      simp only [msgDelivered, Option.getD_some, hfa, hmm, hfind, hv1,
        Bool.false_eq_true, if_false, if_true]
    · have hv1 : (doc.chatType == "private"
          && (doc.toUser != some receiver || doc.fromUser != fromArg))
            = false := by
        have hlit : (("group" : String) == "private") = false := by decide
        rw [hct, hlit, Bool.false_and]
      have hv2 : (doc.chatType == "group" && !memberOfDoc st doc receiver)
          = true := by
        rw [hct]
        simp [hmem]
      simp only [msgDelivered, Option.getD_some, hfa, hmm, hfind, hv1, hv2,
        Bool.false_eq_true, if_false, if_true]

theorem msgRead_silent (st : ServerState) (sid : String)
    (reader msgId fromArg : String) (ok1 ok2 : Bool) (now : Nat)
    (hr : reader ≠ "") (hm : msgId ≠ "") (hf : fromArg ≠ "")
    (hdrop : dbFind st.db msgId = none
      ∨ ∃ doc, dbFind st.db msgId = some doc
          ∧ ((doc.chatType = "private" ∧ doc.toUser ≠ some reader)
             ∨ (doc.chatType = "group"
                ∧ memberOfDoc st doc reader = false))) :
    msgRead st sid (some reader) msgId fromArg ok1 ok2 now
      = ⟨st, [], false⟩ := by
  have hfa : falsyS (some reader) = false := by simp [falsyS, hr]
  have hmm : (msgId == "" || fromArg == "") = false := by simp [hm, hf]
  rcases hdrop with hnone | ⟨doc, hfind, hcase⟩
  · simp only [msgRead, Option.getD_some, hfa, hmm, hnone,
      Bool.false_eq_true, if_false]
  · rcases hcase with ⟨hct, hne⟩ | ⟨hct, hmem⟩
    · have hv1 : (doc.chatType == "private"
          && (doc.toUser != some reader || doc.fromUser != fromArg))
            = true := by
        rw [hct]
        simp [hne]
      simp only [msgRead, Option.getD_some, hfa, hmm, hfind, hv1,
        Bool.false_eq_true, if_false, if_true]
    · have hv1 : (doc.chatType == "private"
          && (doc.toUser != some reader || doc.fromUser != fromArg))
            = false := by
        have hlit : (("group" : String) == "private") = false := by decide
        rw [hct, hlit, Bool.false_and]
      have hv2 : (doc.chatType == "group" && !memberOfDoc st doc reader)
          = true := by
        rw [hct]
        simp [hmem]
      simp only [msgRead, Option.getD_some, hfa, hmm, hfind, hv1, hv2,
        Bool.false_eq_true, if_false, if_true]

theorem litGP : (("group" : String) == "private") = false := by decide

theorem litGG : (("group" : String) == "group") = true := by decide

theorem litPP : (("private" : String) == "private") = true := by decide

theorem deliveredDbStep_fail_private (st : ServerState)
    (msgId receiver : String) (now : Nat) (doc : DbMessage)
    (hct : doc.chatType = "private") :
    deliveredDbStep st msgId receiver now doc false = .error st.db := by
  unfold deliveredDbStep
  rw [hct, litPP]
  simp

theorem deliveredDbStep_fail_group (st : ServerState)
    (msgId receiver : String) (now : Nat) (doc : DbMessage)
    (hct : doc.chatType = "group")
    (hnc : doc.deliveredTo.contains receiver = false) :
    deliveredDbStep st msgId receiver now doc false = .error st.db := by
  have hnc2 : receiver ∉ doc.deliveredTo := by simpa using hnc
  unfold deliveredDbStep
  rw [hct, litGP, litGG]
  simp [hnc2]

theorem readDbStep_fail1_private (st : ServerState)
    (msgId reader : String) (now : Nat) (doc : DbMessage) (ok2 : Bool)
    (hct : doc.chatType = "private") :
    readDbStep st msgId reader now doc false ok2 = .error st.db := by
  unfold readDbStep
  rw [hct, litPP]
  simp

theorem readDbStep_fail1_group (st : ServerState)
    (msgId reader : String) (now : Nat) (doc : DbMessage) (ok2 : Bool)
    (hct : doc.chatType = "group")
    (hnc : doc.readBy.contains reader = false) :
    readDbStep st msgId reader now doc false ok2 = .error st.db := by
  have hnc2 : reader ∉ doc.readBy := by simpa using hnc
  unfold readDbStep
  rw [hct, litGP, litGG]
  simp [hnc2]

theorem readDbStep_contained (st : ServerState)
    (msgId reader : String) (now : Nat) (doc : DbMessage) (ok1 ok2 : Bool)
    (hct : doc.chatType = "group")
    (hc : doc.readBy.contains reader = true) :
    readDbStep st msgId reader now doc ok1 ok2 = .ok (some st.db) := by
  have hc2 : reader ∈ doc.readBy := by simpa using hc
  unfold readDbStep
  rw [hct, litGP, litGG]
  simp [hc2]

theorem readDbStep_fail2_group (st : ServerState)
    (msgId reader : String) (now : Nat) (doc : DbMessage) (info : TrackEntry)
    (hct : doc.chatType = "group")
    (hnc : doc.readBy.contains reader = false)
    (hfind : dbFind st.db msgId = some doc)
    (hinfo : mapGet st.messageStatus msgId = some info)
    (hlen : ((setAdd doc.readBy reader).length == info.totalMembers) = true) :
    readDbStep st msgId reader now doc true false
      = .error (dbUpdate st.db msgId
          (fun d => { d with readBy := setAdd d.readBy reader })) := by
  have hfind2 : dbFind (dbUpdate st.db msgId
        (fun d => { d with readBy := setAdd d.readBy reader })) msgId
      = some { doc with readBy := setAdd doc.readBy reader } := by
    rw [dbFind_dbUpdate st.db msgId
      (fun d => { d with readBy := setAdd d.readBy reader }) (fun d => rfl),
      hfind]
    rfl
  have hnc2 : reader ∉ doc.readBy := by simpa using hnc
  have hlen2 : (setAdd doc.readBy reader).length = info.totalMembers := by
    simpa using hlen
  unfold readDbStep
  rw [hct, litGP, litGG]
  simp [hnc2, hfind2, hinfo, hlen2]

theorem readDbStep_ok2_group (st : ServerState)
    (msgId reader : String) (now : Nat) (doc : DbMessage) (info : TrackEntry)
    (hct : doc.chatType = "group")
    (hnc : doc.readBy.contains reader = false)
    (hfind : dbFind st.db msgId = some doc)
    (hinfo : mapGet st.messageStatus msgId = some info)
    (hlen : ((setAdd doc.readBy reader).length == info.totalMembers) = true) :
    readDbStep st msgId reader now doc true true
      = .ok (some (dbUpdate
          (dbUpdate st.db msgId
            (fun d => { d with readBy := setAdd d.readBy reader }))
          msgId (fun d => { d with status := "read", readAt := some now }))) := by
  have hfind2 : dbFind (dbUpdate st.db msgId
        (fun d => { d with readBy := setAdd d.readBy reader })) msgId
      = some { doc with readBy := setAdd doc.readBy reader } := by
    rw [dbFind_dbUpdate st.db msgId
      (fun d => { d with readBy := setAdd d.readBy reader }) (fun d => rfl),
      hfind]
    rfl
  have hnc2 : reader ∉ doc.readBy := by simpa using hnc
  have hlen2 : (setAdd doc.readBy reader).length = info.totalMembers := by
    simpa using hlen
  unfold readDbStep
  rw [hct, litGP, litGG]
  simp [hnc2, hfind2, hinfo, hlen2]

theorem readDbStep_ok3_group (st : ServerState)
    (msgId reader : String) (now : Nat) (doc : DbMessage) (info : TrackEntry)
    (ok2 : Bool)
    (hct : doc.chatType = "group")
    (hnc : doc.readBy.contains reader = false)
    (hfind : dbFind st.db msgId = some doc)
    (hinfo : mapGet st.messageStatus msgId = some info)
    (hlen : ((setAdd doc.readBy reader).length == info.totalMembers) = false) :
    readDbStep st msgId reader now doc true ok2
      = .ok (some (dbUpdate st.db msgId
          (fun d => { d with readBy := setAdd d.readBy reader }))) := by
  have hfind2 : dbFind (dbUpdate st.db msgId
        (fun d => { d with readBy := setAdd d.readBy reader })) msgId
      = some { doc with readBy := setAdd doc.readBy reader } := by
    rw [dbFind_dbUpdate st.db msgId
      (fun d => { d with readBy := setAdd d.readBy reader }) (fun d => rfl),
      hfind]
    rfl
  have hnc2 : reader ∉ doc.readBy := by simpa using hnc
  have hlen2 : ¬((setAdd doc.readBy reader).length = info.totalMembers) := by
    simpa using hlen
  unfold readDbStep
  rw [hct, litGP, litGG]
  simp [hnc2, hfind2, hinfo, hlen2]

theorem readMemMap_group_get (m : List (String × TrackEntry))
    (msgId reader : String) (now : Nat) (info : TrackEntry)
    (hget : mapGet m msgId = some info)
    (hct : info.chatType = "group") :
    mapGet (readMemMap m msgId reader now) msgId
      = some (if ((setAdd info.readBy reader).length == info.totalMembers)
            = true then
          { info with readBy := setAdd info.readBy reader,
                      status := "read", readAt := some now }
        else { info with readBy := setAdd info.readBy reader }) := by
  have hp : (info.chatType == "private") = false := by
    rw [hct]
    exact litGP
  have hg : (info.chatType == "group") = true := by
    rw [hct]
    exact litGG
  unfold readMemMap
  rw [hget]
  simp only [hp, hg, Bool.false_eq_true, if_false, if_true]
  split
  · rw [mapGet_mapSet_self]
  · rw [mapGet_mapSet_self]

theorem deliveredDbStep_ok_private (st : ServerState)
    (msgId receiver : String) (now : Nat) (doc : DbMessage)
    (hct : doc.chatType = "private") :
    deliveredDbStep st msgId receiver now doc true
      = .ok (dbUpdate st.db msgId
          (fun d => { d with status := "delivered",
                             deliveredAt := some now })) := by
  unfold deliveredDbStep
  rw [hct, litPP]
  simp

theorem deliveredDbStep_contained (st : ServerState)
    (msgId receiver : String) (now : Nat) (doc : DbMessage) (ok : Bool)
    (hct : doc.chatType = "group")
    (hc : doc.deliveredTo.contains receiver = true) :
    deliveredDbStep st msgId receiver now doc ok = .ok st.db := by
  have hc2 : receiver ∈ doc.deliveredTo := by simpa using hc
  unfold deliveredDbStep
  rw [hct, litGP, litGG]
  simp [hc2]

theorem deliveredDbStep_ok_group (st : ServerState)
    (msgId receiver : String) (now : Nat) (doc : DbMessage)
    (hct : doc.chatType = "group")
    (hnc : doc.deliveredTo.contains receiver = false) :
    deliveredDbStep st msgId receiver now doc true
      = .ok (dbUpdate st.db msgId
          (fun d => { d with status := "delivered",
                             deliveredTo := setAdd d.deliveredTo receiver })) := by
  have hnc2 : receiver ∉ doc.deliveredTo := by simpa using hnc
  unfold deliveredDbStep
  rw [hct, litGP, litGG]
  simp [hnc2]

theorem deliveredDbStep_other (st : ServerState)
    (msgId receiver : String) (now : Nat) (doc : DbMessage) (ok : Bool)
    (hp : (doc.chatType == "private") = false)
    (hg : (doc.chatType == "group") = false) :
    deliveredDbStep st msgId receiver now doc ok = .ok st.db := by
  unfold deliveredDbStep
  simp [hp, hg]

theorem readDbStep_ok_private (st : ServerState)
    (msgId reader : String) (now : Nat) (doc : DbMessage) (ok2 : Bool)
    (hct : doc.chatType = "private") :
    readDbStep st msgId reader now doc true ok2
      = .ok (some (dbUpdate st.db msgId
          (fun d => { d with status := "read", readAt := some now }))) := by
  unfold readDbStep
  rw [hct, litPP]
  simp

theorem readDbStep_other (st : ServerState)
    (msgId reader : String) (now : Nat) (doc : DbMessage) (ok1 ok2 : Bool)
    (hp : (doc.chatType == "private") = false)
    (hg : (doc.chatType == "group") = false) :
    readDbStep st msgId reader now doc ok1 ok2 = .ok (some st.db) := by
  unfold readDbStep
  simp [hp, hg]

theorem msgDelivered_drop1 (st : ServerState) (sid : String)
    (receiver msgId fromArg : String) (ok : Bool) (now : Nat)
    (doc : DbMessage)
    (hr : receiver ≠ "") (hm : msgId ≠ "") (hf : fromArg ≠ "")
    (hfind : dbFind st.db msgId = some doc)
    (hv1 : (doc.chatType == "private"
      && (doc.toUser != some receiver || doc.fromUser != fromArg)) = true) :
    msgDelivered st sid (some receiver) msgId fromArg ok now
      = ⟨st, [], false⟩ := by
  have hfa : falsyS (some receiver) = false := by simp [falsyS, hr]
  have hmm : (msgId == "" || fromArg == "") = false := by simp [hm, hf]
  simp only [msgDelivered, Option.getD_some, hfa, hmm, hfind, hv1,
    Bool.false_eq_true, if_false, if_true]

theorem msgDelivered_drop2 (st : ServerState) (sid : String)
    (receiver msgId fromArg : String) (ok : Bool) (now : Nat)
    (doc : DbMessage)
    (hr : receiver ≠ "") (hm : msgId ≠ "") (hf : fromArg ≠ "")
    (hfind : dbFind st.db msgId = some doc)
    (hv1 : (doc.chatType == "private"
      && (doc.toUser != some receiver || doc.fromUser != fromArg)) = false)
    (hv2 : (doc.chatType == "group" && !memberOfDoc st doc receiver)
      = true) :
    msgDelivered st sid (some receiver) msgId fromArg ok now
      = ⟨st, [], false⟩ := by
  have hfa : falsyS (some receiver) = false := by simp [falsyS, hr]
  have hmm : (msgId == "" || fromArg == "") = false := by simp [hm, hf]
  simp only [msgDelivered, Option.getD_some, hfa, hmm, hfind, hv1, hv2,
    Bool.false_eq_true, if_false, if_true]

theorem msgRead_drop1 (st : ServerState) (sid : String)
    (reader msgId fromArg : String) (ok1 ok2 : Bool) (now : Nat)
    (doc : DbMessage)
    (hr : reader ≠ "") (hm : msgId ≠ "") (hf : fromArg ≠ "")
    (hfind : dbFind st.db msgId = some doc)
    (hv1 : (doc.chatType == "private"
      && (doc.toUser != some reader || doc.fromUser != fromArg)) = true) :
    msgRead st sid (some reader) msgId fromArg ok1 ok2 now
      = ⟨st, [], false⟩ := by
  have hfa : falsyS (some reader) = false := by simp [falsyS, hr]
  have hmm : (msgId == "" || fromArg == "") = false := by simp [hm, hf]
  simp only [msgRead, Option.getD_some, hfa, hmm, hfind, hv1,
    Bool.false_eq_true, if_false, if_true]

theorem msgRead_drop2 (st : ServerState) (sid : String)
    (reader msgId fromArg : String) (ok1 ok2 : Bool) (now : Nat)
    (doc : DbMessage)
    (hr : reader ≠ "") (hm : msgId ≠ "") (hf : fromArg ≠ "")
    (hfind : dbFind st.db msgId = some doc)
    (hv1 : (doc.chatType == "private"
      && (doc.toUser != some reader || doc.fromUser != fromArg)) = false)
    (hv2 : (doc.chatType == "group" && !memberOfDoc st doc reader) = true) :
    msgRead st sid (some reader) msgId fromArg ok1 ok2 now
      = ⟨st, [], false⟩ := by
  have hfa : falsyS (some reader) = false := by simp [falsyS, hr]
  have hmm : (msgId == "" || fromArg == "") = false := by simp [hm, hf]
  simp only [msgRead, Option.getD_some, hfa, hmm, hfind, hv1, hv2,
    Bool.false_eq_true, if_false, if_true]

theorem msgDelivered_second (st : ServerState) (sid : String)
    (receiver msgId fromArg : String) (now : Nat) (db1 : List DbMessage)
    (doc1 : DbMessage)
    (hr : receiver ≠ "") (hm : msgId ≠ "") (hf : fromArg ≠ "")
    (hfind1 : dbFind db1 msgId = some doc1)
    (hv1 : (doc1.chatType == "private"
      && (doc1.toUser != some receiver || doc1.fromUser != fromArg)) = false)
    (hv2 : (doc1.chatType == "group"
      && !memberOfDoc (ackState st db1
          (deliveredMemMap st.messageStatus msgId receiver now))
          doc1 receiver) = false)
    (hstep : deliveredDbStep (ackState st db1
        (deliveredMemMap st.messageStatus msgId receiver now))
        msgId receiver now doc1 true = .ok db1) :
    (msgDelivered (ackState st db1
        (deliveredMemMap st.messageStatus msgId receiver now))
      sid (some receiver) msgId fromArg true now).st
      = ackState st db1
          (deliveredMemMap st.messageStatus msgId receiver now) := by
  rw [msgDelivered_reduce _ sid receiver msgId fromArg true now doc1
    hr hm hf hfind1 hv1 hv2, hstep]
  show ackState st db1
      (deliveredMemMap (deliveredMemMap st.messageStatus msgId receiver now)
        msgId receiver now)
    = _
  rw [deliveredMemMap_idem]

theorem msgRead_second (st : ServerState) (sid : String)
    (reader msgId fromArg : String) (now : Nat) (db1 : List DbMessage)
    (doc1 : DbMessage)
    (hr : reader ≠ "") (hm : msgId ≠ "") (hf : fromArg ≠ "")
    (hfind1 : dbFind db1 msgId = some doc1)
    (hv1 : (doc1.chatType == "private"
      && (doc1.toUser != some reader || doc1.fromUser != fromArg)) = false)
    (hv2 : (doc1.chatType == "group"
      && !memberOfDoc (ackState st db1
          (readMemMap st.messageStatus msgId reader now)) doc1 reader)
        = false)
    (hstep : readDbStep (ackState st db1
        (readMemMap st.messageStatus msgId reader now))
        msgId reader now doc1 true true = .ok (some db1)) :
    (msgRead (ackState st db1
        (readMemMap st.messageStatus msgId reader now))
      sid (some reader) msgId fromArg true true now).st
      = ackState st db1 (readMemMap st.messageStatus msgId reader now) := by
  rw [msgRead_reduce _ sid reader msgId fromArg true true now doc1
    hr hm hf hfind1 hv1 hv2, hstep]
  show ackState st db1
      (readMemMap (readMemMap st.messageStatus msgId reader now)
        msgId reader now)
    = _
  rw [readMemMap_idem]

theorem readDbStep_ok2_none (st : ServerState)
    (msgId reader : String) (now : Nat) (doc : DbMessage)
    (hct : doc.chatType = "group")
    (hnc : doc.readBy.contains reader = false)
    (hfind : dbFind st.db msgId = some doc)
    (hnone : mapGet st.messageStatus msgId = none) :
    readDbStep st msgId reader now doc true true
      = .ok (some (dbUpdate
          (dbUpdate st.db msgId
            (fun d => { d with readBy := setAdd d.readBy reader }))
          msgId (fun d => { d with status := "read", readAt := some now }))) := by
  have hfind2 : dbFind (dbUpdate st.db msgId
        (fun d => { d with readBy := setAdd d.readBy reader })) msgId
      = some { doc with readBy := setAdd doc.readBy reader } := by
    rw [dbFind_dbUpdate st.db msgId
      (fun d => { d with readBy := setAdd d.readBy reader }) (fun d => rfl),
      hfind]
    rfl
  have hnc2 : reader ∉ doc.readBy := by simpa using hnc
  unfold readDbStep
  rw [hct, litGP, litGG]
  simp [hnc2, hfind2, hnone]

theorem msgDelivered_idem (st : ServerState) (sid : String)
    (uname : Option String) (msgId fromArg : String) (now : Nat) :
    (msgDelivered (msgDelivered st sid uname msgId fromArg true now).st
        sid uname msgId fromArg true now).st
      = (msgDelivered st sid uname msgId fromArg true now).st := by
  cases uname with
  | none =>
    have hEq : (msgDelivered st sid none msgId fromArg true now).st = st := by
      simp [msgDelivered, falsyS]
    rw [hEq]
    exact hEq
  | some receiver =>
    by_cases hrE : receiver = ""
    · subst hrE
      have hEq : (msgDelivered st sid (some "") msgId fromArg true now).st
          = st := by
        simp [msgDelivered, falsyS]
      rw [hEq]
      exact hEq
    have hfa : falsyS (some receiver) = false := by simp [falsyS, hrE]
    by_cases hmm : (msgId == "" || fromArg == "") = true
    · have hEq : (msgDelivered st sid (some receiver) msgId fromArg true
          now).st = st := by
        simp only [msgDelivered, hfa, Bool.false_eq_true, if_false, hmm,
          if_true]
      rw [hEq]
      exact hEq
    have hm : msgId ≠ "" := by
      intro h
      rw [h] at hmm
      simp at hmm
    have hf : fromArg ≠ "" := by
      intro h
      rw [h] at hmm
      simp at hmm
    cases hfind : dbFind st.db msgId with
    | none =>
      have hEq : (msgDelivered st sid (some receiver) msgId fromArg true
          now).st = st := by
        rw [msgDelivered_silent st sid receiver msgId fromArg true now
          hrE hm hf (Or.inl hfind)]
      rw [hEq]
      exact hEq
    | some doc =>
      by_cases hv1 : (doc.chatType == "private"
          && (doc.toUser != some receiver || doc.fromUser != fromArg)) = true
      · have hEq : (msgDelivered st sid (some receiver) msgId fromArg true
            now).st = st := by
          rw [msgDelivered_drop1 st sid receiver msgId fromArg true now doc
            hrE hm hf hfind hv1]
        rw [hEq]
        exact hEq
      have hv1f : (doc.chatType == "private"
          && (doc.toUser != some receiver || doc.fromUser != fromArg))
            = false := by
        simpa using hv1
      by_cases hv2 : (doc.chatType == "group"
          && !memberOfDoc st doc receiver) = true
      · have hEq : (msgDelivered st sid (some receiver) msgId fromArg true
            now).st = st := by
          rw [msgDelivered_drop2 st sid receiver msgId fromArg true now doc
            hrE hm hf hfind hv1f hv2]
        rw [hEq]
        exact hEq
      have hv2f : (doc.chatType == "group"
          && !memberOfDoc st doc receiver) = false := by
        simpa using hv2
      have hred := msgDelivered_reduce st sid receiver msgId fromArg true now
        doc hrE hm hf hfind hv1f hv2f
      by_cases hp : (doc.chatType == "private") = true
      · -- private record: both runs overwrite status and deliveredAt
        have hP : doc.chatType = "private" := eq_of_beq hp
        have hstep := deliveredDbStep_ok_private st msgId receiver now doc hP
        have hSt : (msgDelivered st sid (some receiver) msgId fromArg true
            now).st
            = ackState st
                (dbUpdate st.db msgId
                  (fun d => { d with status := "delivered",
                                     deliveredAt := some now }))
                (deliveredMemMap st.messageStatus msgId receiver now) := by
          rw [hred, hstep]
          rfl
        rw [hSt]
        have hfind1 : dbFind (dbUpdate st.db msgId
              (fun d => { d with status := "delivered",
                                 deliveredAt := some now })) msgId
            = some { doc with status := "delivered",
                              deliveredAt := some now } := by
          rw [dbFind_dbUpdate st.db msgId
            (fun d => { d with status := "delivered",
                               deliveredAt := some now })
            (fun d => rfl), hfind]
          rfl
        have hdb2 : dbUpdate (dbUpdate st.db msgId
              (fun d => { d with status := "delivered",
                                 deliveredAt := some now })) msgId
              (fun d => { d with status := "delivered",
                                 deliveredAt := some now })
            = dbUpdate st.db msgId
              (fun d => { d with status := "delivered",
                                 deliveredAt := some now }) := by
          rw [dbUpdate_dbUpdate st.db msgId
            (fun d => { d with status := "delivered",
                               deliveredAt := some now })
            (fun d => { d with status := "delivered",
                               deliveredAt := some now })
            (fun d => rfl)]
        have hP1 : ({ doc with status := "delivered", deliveredAt := some now } : DbMessage).chatType = "private" := hP
        refine msgDelivered_second st sid receiver msgId fromArg now _ _
          hrE hm hf hfind1 hv1f hv2f ?_
        rw [deliveredDbStep_ok_private _ msgId receiver now _ hP1]
        exact congrArg Except.ok hdb2
      · by_cases hg : (doc.chatType == "group") = true
        · have hG : doc.chatType = "group" := eq_of_beq hg
          by_cases hc : doc.deliveredTo.contains receiver = true
          · -- group record already containing the receiver: no write
            have hstep := deliveredDbStep_contained st msgId receiver now doc
              true hG hc
            have hSt : (msgDelivered st sid (some receiver) msgId fromArg
                true now).st
                = ackState st st.db
                    (deliveredMemMap st.messageStatus msgId receiver now) := by
              rw [hred, hstep]
              rfl
            rw [hSt]
            refine msgDelivered_second st sid receiver msgId fromArg now _ _
              hrE hm hf hfind hv1f hv2f ?_
            exact deliveredDbStep_contained _ msgId receiver now doc true hG hc
          · -- group record gaining the receiver on the first run
            have hc2 : doc.deliveredTo.contains receiver = false := by
              simpa using hc
            have hstep := deliveredDbStep_ok_group st msgId receiver now doc
              hG hc2
            have hSt : (msgDelivered st sid (some receiver) msgId fromArg
                true now).st
                = ackState st
                    (dbUpdate st.db msgId
                      (fun d => { d with status := "delivered",
                                         deliveredTo := setAdd d.deliveredTo receiver }))
                    (deliveredMemMap st.messageStatus msgId receiver now) := by
              rw [hred, hstep]
              rfl
            rw [hSt]
            have hfind1 : dbFind (dbUpdate st.db msgId
                  (fun d => { d with status := "delivered",
                                     deliveredTo := setAdd d.deliveredTo receiver })) msgId
                = some { doc with status := "delivered",
                                  deliveredTo := setAdd doc.deliveredTo receiver } := by
              rw [dbFind_dbUpdate st.db msgId
                (fun d => { d with status := "delivered",
                                   deliveredTo := setAdd d.deliveredTo receiver })
                (fun d => rfl), hfind]
              rfl
            refine msgDelivered_second st sid receiver msgId fromArg now _ _
              hrE hm hf hfind1 hv1f hv2f ?_
            exact deliveredDbStep_contained _ msgId receiver now _ true hG
              (setAdd_contains doc.deliveredTo receiver)
        · -- record of neither chat type: no write, memory phase still runs
          have hpf : (doc.chatType == "private") = false := by simpa using hp
          have hgf : (doc.chatType == "group") = false := by simpa using hg
          have hstep := deliveredDbStep_other st msgId receiver now doc true
            hpf hgf
          have hSt : (msgDelivered st sid (some receiver) msgId fromArg true
              now).st
              = ackState st st.db
                  (deliveredMemMap st.messageStatus msgId receiver now) := by
            rw [hred, hstep]
            rfl
          rw [hSt]
          refine msgDelivered_second st sid receiver msgId fromArg now _ _
            hrE hm hf hfind hv1f hv2f ?_
          exact deliveredDbStep_other _ msgId receiver now doc true hpf hgf

theorem msgRead_idem (st : ServerState) (sid : String)
    (uname : Option String) (msgId fromArg : String) (now : Nat) :
    (msgRead (msgRead st sid uname msgId fromArg true true now).st
        sid uname msgId fromArg true true now).st
      = (msgRead st sid uname msgId fromArg true true now).st := by
  cases uname with
  | none =>
    have hEq : (msgRead st sid none msgId fromArg true true now).st = st := by
      simp [msgRead, falsyS]
    rw [hEq]
    exact hEq
  | some reader =>
    by_cases hrE : reader = ""
    · subst hrE
      have hEq : (msgRead st sid (some "") msgId fromArg true true now).st
          = st := by
        simp [msgRead, falsyS]
      rw [hEq]
      exact hEq
    have hfa : falsyS (some reader) = false := by simp [falsyS, hrE]
    by_cases hmm : (msgId == "" || fromArg == "") = true
    · have hEq : (msgRead st sid (some reader) msgId fromArg true true
          now).st = st := by
        simp only [msgRead, hfa, Bool.false_eq_true, if_false, hmm, if_true]
      rw [hEq]
      exact hEq
    have hm : msgId ≠ "" := by
      intro h
      rw [h] at hmm
      simp at hmm
    have hf : fromArg ≠ "" := by
      intro h
      rw [h] at hmm
      simp at hmm
    cases hfind : dbFind st.db msgId with
    | none =>
      have hEq : (msgRead st sid (some reader) msgId fromArg true true
          now).st = st := by
        rw [msgRead_silent st sid reader msgId fromArg true true now
          hrE hm hf (Or.inl hfind)]
      rw [hEq]
      exact hEq
    | some doc =>
      by_cases hv1 : (doc.chatType == "private"
          && (doc.toUser != some reader || doc.fromUser != fromArg)) = true
      · have hEq : (msgRead st sid (some reader) msgId fromArg true true
            now).st = st := by
          rw [msgRead_drop1 st sid reader msgId fromArg true true now doc
            hrE hm hf hfind hv1]
        rw [hEq]
        exact hEq
      have hv1f : (doc.chatType == "private"
          && (doc.toUser != some reader || doc.fromUser != fromArg))
            = false := by
        simpa using hv1
      by_cases hv2 : (doc.chatType == "group"
          && !memberOfDoc st doc reader) = true
      · have hEq : (msgRead st sid (some reader) msgId fromArg true true
            now).st = st := by
          rw [msgRead_drop2 st sid reader msgId fromArg true true now doc
            hrE hm hf hfind hv1f hv2]
        rw [hEq]
        exact hEq
      have hv2f : (doc.chatType == "group"
          && !memberOfDoc st doc reader) = false := by
        simpa using hv2
      have hred := msgRead_reduce st sid reader msgId fromArg true true now
        doc hrE hm hf hfind hv1f hv2f
      by_cases hp : (doc.chatType == "private") = true
      · -- private record: both runs overwrite status and readAt
        have hP : doc.chatType = "private" := eq_of_beq hp
        have hstep := readDbStep_ok_private st msgId reader now doc true hP
        have hSt : (msgRead st sid (some reader) msgId fromArg true true
            now).st
            = ackState st
                (dbUpdate st.db msgId
                  (fun d => { d with status := "read", readAt := some now }))
                (readMemMap st.messageStatus msgId reader now) := by
          rw [hred, hstep]
          rfl
        rw [hSt]
        have hfind1 : dbFind (dbUpdate st.db msgId
              (fun d => { d with status := "read", readAt := some now }))
              msgId
            = some { doc with status := "read", readAt := some now } := by
          rw [dbFind_dbUpdate st.db msgId
            (fun d => { d with status := "read", readAt := some now })
            (fun d => rfl), hfind]
          rfl
        have hdb2 : dbUpdate (dbUpdate st.db msgId
              (fun d => { d with status := "read", readAt := some now }))
              msgId
              (fun d => { d with status := "read", readAt := some now })
            = dbUpdate st.db msgId
              (fun d => { d with status := "read", readAt := some now }) := by
          rw [dbUpdate_dbUpdate st.db msgId
            (fun d => { d with status := "read", readAt := some now })
            (fun d => { d with status := "read", readAt := some now })
            (fun d => rfl)]
        have hP1 : ({ doc with status := "read", readAt := some now } : DbMessage).chatType = "private" := hP
        refine msgRead_second st sid reader msgId fromArg now _ _
          hrE hm hf hfind1 hv1f hv2f ?_
        rw [readDbStep_ok_private _ msgId reader now _ true hP1]
        exact congrArg (fun l => Except.ok (some l)) hdb2
      · by_cases hg : (doc.chatType == "group") = true
        · have hG : doc.chatType = "group" := eq_of_beq hg
          by_cases hc : doc.readBy.contains reader = true
          · -- group record already containing the reader: no write
            have hstep := readDbStep_contained st msgId reader now doc true
              true hG hc
            have hSt : (msgRead st sid (some reader) msgId fromArg true true
                now).st
                = ackState st st.db
                    (readMemMap st.messageStatus msgId reader now) := by
              rw [hred, hstep]
              rfl
            rw [hSt]
            refine msgRead_second st sid reader msgId fromArg now _ _
              hrE hm hf hfind hv1f hv2f ?_
            exact readDbStep_contained _ msgId reader now doc true true hG hc
          · have hc2 : doc.readBy.contains reader = false := by
              simpa using hc
            have hcont1 : ({ doc with readBy := setAdd doc.readBy reader } : DbMessage).readBy.contains reader = true :=
              setAdd_contains doc.readBy reader
            cases hinfo : mapGet st.messageStatus msgId with
            | some info =>
              by_cases hlen : ((setAdd doc.readBy reader).length
                  == info.totalMembers) = true
              · -- first write lands, aggregate status write lands too
                have hstep := readDbStep_ok2_group st msgId reader now doc
                  info hG hc2 hfind hinfo hlen
                have hSt : (msgRead st sid (some reader) msgId fromArg true
                    true now).st
                    = ackState st
                        (dbUpdate
                          (dbUpdate st.db msgId
                            (fun d => { d with readBy := setAdd d.readBy reader }))
                          msgId
                          (fun d => { d with status := "read", readAt := some now }))
                        (readMemMap st.messageStatus msgId reader now) := by
                  rw [hred, hstep]
                  rfl
                rw [hSt]
                have hfindA : dbFind (dbUpdate st.db msgId
                      (fun d => { d with readBy := setAdd d.readBy reader }))
                      msgId
                    = some { doc with readBy := setAdd doc.readBy reader } := by
                  rw [dbFind_dbUpdate st.db msgId
                    (fun d => { d with readBy := setAdd d.readBy reader })
                    (fun d => rfl), hfind]
                  rfl
                have hfind1 : dbFind (dbUpdate
                      (dbUpdate st.db msgId
                        (fun d => { d with readBy := setAdd d.readBy reader }))
                      msgId
                      (fun d => { d with status := "read", readAt := some now }))
                      msgId
                    = some { doc with readBy := setAdd doc.readBy reader,
                                      status := "read", readAt := some now } := by
                  rw [dbFind_dbUpdate _ msgId
                    (fun d => { d with status := "read", readAt := some now })
                    (fun d => rfl), hfindA]
                  rfl
                have hG1 : ({ doc with readBy := setAdd doc.readBy reader, status := "read", readAt := some now } : DbMessage).chatType = "group" := hG
                have hcont2 : ({ doc with readBy := setAdd doc.readBy reader, status := "read", readAt := some now } : DbMessage).readBy.contains reader = true :=
                  setAdd_contains doc.readBy reader
                refine msgRead_second st sid reader msgId fromArg now _ _
                  hrE hm hf hfind1 hv1f hv2f ?_
                exact readDbStep_contained _ msgId reader now _ true true
                  hG1 hcont2
              · -- first write lands, count below the snapshot
                have hlen2 : ((setAdd doc.readBy reader).length
                    == info.totalMembers) = false := by
                  simpa using hlen
                have hstep := readDbStep_ok3_group st msgId reader now doc
                  info true hG hc2 hfind hinfo hlen2
                have hSt : (msgRead st sid (some reader) msgId fromArg true
                    true now).st
                    = ackState st
                        (dbUpdate st.db msgId
                          (fun d => { d with readBy := setAdd d.readBy reader }))
                        (readMemMap st.messageStatus msgId reader now) := by
                  rw [hred, hstep]
                  rfl
                rw [hSt]
                have hfind1 : dbFind (dbUpdate st.db msgId
                      (fun d => { d with readBy := setAdd d.readBy reader }))
                      msgId
                    = some { doc with readBy := setAdd doc.readBy reader } := by
                  rw [dbFind_dbUpdate st.db msgId
                    (fun d => { d with readBy := setAdd d.readBy reader })
                    (fun d => rfl), hfind]
                  rfl
                have hG1 : ({ doc with readBy := setAdd doc.readBy reader } : DbMessage).chatType = "group" := hG
                refine msgRead_second st sid reader msgId fromArg now _ _
                  hrE hm hf hfind1 hv1f hv2f ?_
                exact readDbStep_contained _ msgId reader now _ true true
                  hG1 hcont1
            | none =>
              -- no tracker entry: count snapshot defaults to the grown set
              have hstep := readDbStep_ok2_none st msgId reader now doc
                hG hc2 hfind hinfo
              have hSt : (msgRead st sid (some reader) msgId fromArg true
                  true now).st
                  = ackState st
                      (dbUpdate
                        (dbUpdate st.db msgId
                          (fun d => { d with readBy := setAdd d.readBy reader }))
                        msgId
                        (fun d => { d with status := "read", readAt := some now }))
                      (readMemMap st.messageStatus msgId reader now) := by
                rw [hred, hstep]
                rfl
              rw [hSt]
              have hfindA : dbFind (dbUpdate st.db msgId
                    (fun d => { d with readBy := setAdd d.readBy reader }))
                    msgId
                  = some { doc with readBy := setAdd doc.readBy reader } := by
                rw [dbFind_dbUpdate st.db msgId
                  (fun d => { d with readBy := setAdd d.readBy reader })
                  (fun d => rfl), hfind]
                rfl
              have hfind1 : dbFind (dbUpdate
                    (dbUpdate st.db msgId
                      (fun d => { d with readBy := setAdd d.readBy reader }))
                    msgId
                    (fun d => { d with status := "read", readAt := some now }))
                    msgId
                  = some { doc with readBy := setAdd doc.readBy reader,
                                    status := "read", readAt := some now } := by
                rw [dbFind_dbUpdate _ msgId
                  (fun d => { d with status := "read", readAt := some now })
                  (fun d => rfl), hfindA]
                rfl
              have hG1 : ({ doc with readBy := setAdd doc.readBy reader, status := "read", readAt := some now } : DbMessage).chatType = "group" := hG
              have hcont2 : ({ doc with readBy := setAdd doc.readBy reader, status := "read", readAt := some now } : DbMessage).readBy.contains reader = true :=
                setAdd_contains doc.readBy reader
              refine msgRead_second st sid reader msgId fromArg now _ _
                hrE hm hf hfind1 hv1f hv2f ?_
              exact readDbStep_contained _ msgId reader now _ true true
                hG1 hcont2
        · -- record of neither chat type: no write, memory phase still runs
          have hpf : (doc.chatType == "private") = false := by simpa using hp
          have hgf : (doc.chatType == "group") = false := by simpa using hg
          have hstep := readDbStep_other st msgId reader now doc true true
            hpf hgf
          have hSt : (msgRead st sid (some reader) msgId fromArg true true
              now).st
              = ackState st st.db
                  (readMemMap st.messageStatus msgId reader now) := by
            rw [hred, hstep]
            rfl
          rw [hSt]
          refine msgRead_second st sid reader msgId fromArg now _ _
            hrE hm hf hfind hv1f hv2f ?_
          exact readDbStep_other _ msgId reader now doc true true hpf hgf

/-- C1: the claim asserts that the recorded status of a message is
non-decreasing under sent, delivered, read, and in particular that a
delivery acknowledgment arriving after the message is already read never
moves the status back to delivered.  The code violates this: in the
concrete run below the private message m1 is first read (tracker and
record say read), and a subsequent delivery acknowledgment overwrites both
the in-memory tracker status and the persisted status back to delivered,
because the message_delivered handler unconditionally sets status to
delivered (server.js lines 655-663 and 686-688).  This theorem evaluates
the embedded handlers at that failing input. -/
theorem c1_delivery_after_read_regresses :
    (mapGet (runOps wOpsC1pre).messageStatus "m1").map TrackEntry.status
        = some "read"
    ∧ (dbFind (runOps wOpsC1pre).db "m1").map DbMessage.status = some "read"
    ∧ (mapGet (runOps wOpsC1).messageStatus "m1").map TrackEntry.status
        = some "delivered"
    ∧ (dbFind (runOps wOpsC1).db "m1").map DbMessage.status
        = some "delivered" := by
  exact ⟨rfl, rfl, rfl, rfl⟩

/-- C2 counterexample: the claim asserts that applying any permutation of
a set of acknowledgment events yields the same final tracker state.  The
two runs below apply the same two acknowledgment events (a delivery
acknowledgment with timestamp 10 and a read acknowledgment with timestamp
20) for the same private message in the two possible orders and end with
different tracker statuses, read versus delivered, so the claim as stated
is false. -/
theorem c2_order_changes_final_status :
    (mapGet (runOps (wOpsC2 ++ [wOpC2d, wOpC2r])).messageStatus "m1").map
        TrackEntry.status = some "read"
    ∧ (mapGet (runOps (wOpsC2 ++ [wOpC2r, wOpC2d])).messageStatus "m1").map
        TrackEntry.status = some "delivered"
    ∧ (mapGet (runOps (wOpsC2 ++ [wOpC2d, wOpC2r])).messageStatus "m1"
        ≠ mapGet (runOps (wOpsC2 ++ [wOpC2r, wOpC2d])).messageStatus "m1") := by
  refine ⟨rfl, rfl, ?_⟩
  decide

/-- C2 amended: acknowledgment recording is idempotent when the
persistence calls succeed: immediately re-issuing an identical delivery or
read acknowledgment (same acting socket, same payload, same timestamp)
leaves the entire server state unchanged.  The final state is however not
permutation-invariant, because a delivery acknowledgment unconditionally
overwrites the scalar status, as the counterexample shows. -/
theorem c2_ack_idempotent (st : ServerState) (sid : String)
    (uname : Option String) (msgId fromArg : String) (now : Nat) :
    (msgDelivered (msgDelivered st sid uname msgId fromArg true now).st
        sid uname msgId fromArg true now).st
      = (msgDelivered st sid uname msgId fromArg true now).st
    ∧ (msgRead (msgRead st sid uname msgId fromArg true true now).st
        sid uname msgId fromArg true true now).st
      = (msgRead st sid uname msgId fromArg true true now).st :=
  ⟨msgDelivered_idem st sid uname msgId fromArg now,
   msgRead_idem st sid uname msgId fromArg now⟩

/-- C4: the claim describes the leave operation as removing the identity
from the member set and deleting the empty group.  The code cannot do
this: inside the leaveGroup handler the read of groupId on line 283 falls
in the temporal dead zone of the shadowing const declaration on line 288,
so the handler throws a ReferenceError right after removing the socket
from the room set.  In the concrete run below (alice creates team and
then leaves it) the handler throws, alice is still recorded as a member
of g1, the name team still resolves to g1, the room survives with an
empty socket set, and no notification is emitted — the claim describes
the clear intent and the code is a slip. -/
theorem c4_leave_group_throws :
    (leaveGroup (runOps wOpsC4) "s1" (some "alice") "team").threw = true
    ∧ mapGet (leaveGroup (runOps wOpsC4) "s1" (some "alice") "team").st.groupIds
        "team" = some "g1"
    ∧ mapGet (leaveGroup (runOps wOpsC4) "s1"
        (some "alice") "team").st.groupMembers "g1" = some ["alice"]
    ∧ mapGet (leaveGroup (runOps wOpsC4) "s1" (some "alice") "team").st.rooms
        "team" = some []
    ∧ (leaveGroup (runOps wOpsC4) "s1" (some "alice") "team").emits = [] := by
  exact ⟨rfl, rfl, rfl, rfl, rfl⟩

/-- C5 counterexample: the claim asserts that a registration request from
the session that already holds the identity does not fail.  In the run
below socket s1 registers alice and then re-registers the same identity
from the same socket; the handler still emits a duplicate-identity error
to s1 (and leaves the state unchanged), so the claim as stated is false. -/
theorem c5_same_session_reregister_fails :
    register (register st0 "s1" "alice").st "s1" "alice"
      = ⟨(register st0 "s1" "alice").st,
          [⟨.sock "s1", "error"⟩], false⟩ := by
  rfl

/-- C5 amended: register fails with a duplicate-identity error whenever
the identity is already mapped to any live session, including the
requesting session itself, and every failed registration leaves the whole
state unchanged with only an error notification to the acting socket. -/
theorem c5_duplicate_register_rejected (st : ServerState) (sid u : String)
    (hdup : mapHas st.userSocketMap u = true) :
    register st sid u = ⟨st, [⟨.sock sid, "error"⟩], false⟩ := by
  unfold register
  split
  · rfl
  · simp [hdup]

/-- Witness for the amended C5 theorem at a concrete state where alice is
already registered. -/
theorem c5_duplicate_register_rejected_witness :
    mapHas wStP.userSocketMap "alice" = true
    ∧ register wStP "s2" "alice" = ⟨wStP, [⟨.sock "s2", "error"⟩], false⟩ :=
  ⟨by rfl, c5_duplicate_register_rejected wStP "s2" "alice" (by rfl)⟩

/-- C9 counterexample: the claim asserts that after every operation the
identity-to-session and session-to-identity maps are exact inverses.  In
the run below socket s1 registers alice and then registers bob: the
identity-to-session map still holds alice mapped to s1, while the
session-to-identity map holds s1 mapped to bob, so the maps are not
inverses and one session effectively holds two identities. -/
theorem c9_registry_not_inverse :
    mapGet (runOps wOpsC9).userSocketMap "alice" = some "s1"
    ∧ mapGet (runOps wOpsC9).socketUserMap "s1" = some "bob"
    ∧ mapGet (runOps wOpsC9).socketUserMap "s1" ≠ some "alice" := by
  refine ⟨rfl, rfl, ?_⟩
  decide

/-- C9 amended: after any sequence of operations the session-to-identity
map is a sub-inverse of the identity-to-session map: whenever the
session-to-identity map sends a session to an identity, the
identity-to-session map sends that identity back to that session.  The
full inverse property fails only in the other direction, because a
session that registers a second identity leaves its old
identity-to-session entry behind, as the counterexample shows. -/
theorem c9_registry_forward_inverse (ops : List Op) (s u : String)
    (h : mapGet (runOps ops).socketUserMap s = some u) :
    mapGet (runOps ops).userSocketMap u = some s :=
  (regInvAux_runOps ops).1 s u h

/-- Witness for the amended C9 theorem on a one-registration run. -/
theorem c9_registry_forward_inverse_witness :
    mapGet (runOps [Op.opRegister "s1" "alice"]).userSocketMap "alice"
      = some "s1" :=
  c9_registry_forward_inverse [Op.opRegister "s1" "alice"] "s1" "alice"
    (by rfl)

/-- C10 counterexample: the claim asserts that a group message can only
reach the aggregate status read after the sender has been added to the
read-by set.  In the run below alice sends m3 to a group of two sockets
(snapshot 2); carol joins afterwards, and the read acknowledgments of bob
and carol alone drive the read-by size to the snapshot: the tracker
status becomes read while alice, the sender, is absent from the read-by
set, so the claim as stated is false. -/
theorem c10_read_without_sender :
    (mapGet (runOps wOpsC10).messageStatus "m3").map TrackEntry.status
        = some "read"
    ∧ (mapGet (runOps wOpsC10).messageStatus "m3").map
        (fun i => i.readBy.contains "alice") = some false
    ∧ (mapGet (runOps wOpsC10).messageStatus "m3").map TrackEntry.fromUser
        = some "alice" := by
  exact ⟨rfl, rfl, rfl⟩

/-- C10 amended: the total-recipient-count snapshotted by a group send
equals the number of sockets in the room of the group at that moment,
and that count includes the sending socket (which is in the room by the
membership guard), so the sender counts toward the read denominator.
However, status can reach read without the sender acknowledging when
members who joined after the send acknowledge instead, as the
counterexample shows. -/
theorem c10_snapshot_is_room_size_with_sender (st : ServerState)
    (sid u groupName text msgId : String) (l : List String)
    (hu : u ≠ "") (hg : groupName ≠ "") (ht : text ≠ "")
    (hroom : mapGet st.rooms (jsTrim groupName) = some l)
    (hmem : setHas l sid = true) :
    ∃ e : TrackEntry,
      mapGet (groupMessage st sid (some u) groupName text msgId
          true).st.messageStatus msgId = some e
      ∧ e.totalMembers = l.length
      ∧ l.contains sid = true := by
  have hfa : falsyS (some u) = false := by simp [falsyS, hu]
  have hgt : (groupName == "" || text == "") = false := by simp [hg, ht]
  have hhas : mapHas st.rooms (jsTrim groupName) = true := by
    simp [mapHas, hroom]
  have hguard : (!mapHas st.rooms (jsTrim groupName)
      || !setHas ((mapGet st.rooms (jsTrim groupName)).getD []) sid) = false := by
    rw [hhas, hroom]
    simp only [Option.getD_some]
    rw [hmem]
    rfl
  have hred : (groupMessage st sid (some u) groupName text msgId
        true).st.messageStatus
      = mapSet st.messageStatus msgId
          { fromUser := u, toUser := none,
            groupId := mapGet st.groupIds (jsTrim groupName),
            groupName := some (jsTrim groupName), status := "sent",
            chatType := "group", deliveredTo := [], readBy := [],
            totalMembers := ((mapGet st.rooms (jsTrim groupName)).getD
              []).length,
            deliveredAt := none, readAt := none } := by
    simp only [groupMessage, Option.getD_some, hfa, hgt, hguard,
      Bool.false_eq_true, if_false, if_true]
  refine ⟨{ fromUser := u, toUser := none,
            groupId := mapGet st.groupIds (jsTrim groupName),
            groupName := some (jsTrim groupName), status := "sent",
            chatType := "group", deliveredTo := [], readBy := [],
            totalMembers := ((mapGet st.rooms (jsTrim groupName)).getD []).length,
            deliveredAt := none, readAt := none }, ?_, ?_, ?_⟩
  · rw [hred]
    exact mapGet_mapSet_self _ _ _
  · simp only [hroom, Option.getD_some]
  · exact hmem

/-- Witness for the amended C10 theorem at a concrete two-member group. -/
theorem c10_snapshot_is_room_size_with_sender_witness :
    ∃ e : TrackEntry,
      mapGet (groupMessage wStG "s1" (some "alice") "team" "hi" "m9"
          true).st.messageStatus "m9" = some e
      ∧ e.totalMembers = (["s1", "s2"] : List String).length
      ∧ (["s1", "s2"] : List String).contains "s1" = true :=
  c10_snapshot_is_room_size_with_sender wStG "s1" "alice" "team" "hi" "m9"
    ["s1", "s2"] (by decide) (by decide) (by decide) (by rfl) (by rfl)

theorem litPG : (("private" : String) == "group") = false := by decide

/-- C3: for a tracked group message that is not yet read, a valid read
acknowledgment moves the aggregate status to read exactly when the size
of the grown read-by set equals the totalMembers count snapshotted at
send time; the snapshot itself is never changed by the acknowledgment,
and membership operations (join, leave, add, disconnect) never touch the
tracker, so the threshold is independent of membership changes after the
send; moreover, in every reachable state a group entry with a non-empty
delivered-by set has status delivered or read. -/
theorem c3_group_read_iff_snapshot (st : ServerState) (sid : String)
    (reader msgId fromArg : String) (now : Nat)
    (info : TrackEntry) (doc : DbMessage) (gid : String) (ms : List String)
    (hinfo : mapGet st.messageStatus msgId = some info)
    (hict : info.chatType = "group")
    (hpre : info.status ≠ "read")
    (hr : reader ≠ "") (hm : msgId ≠ "") (hf : fromArg ≠ "")
    (hfind : dbFind st.db msgId = some doc)
    (hdct : doc.chatType = "group")
    (hgid : doc.groupId = some gid)
    (hms : mapGet st.groupMembers gid = some ms)
    (hmem : setHas ms reader = true) :
    (∃ info2 : TrackEntry,
        mapGet (msgRead st sid (some reader) msgId fromArg true true
            now).st.messageStatus msgId = some info2
        ∧ info2.totalMembers = info.totalMembers
        ∧ (info2.status = "read"
            ↔ (setAdd info.readBy reader).length = info.totalMembers))
    ∧ (∀ (st2 : ServerState) (sid2 : String) (un2 : Option String)
        (g2 f2 : String),
        (joinGroup st2 sid2 un2 g2 f2).st.messageStatus = st2.messageStatus)
    ∧ (∀ (st2 : ServerState) (sid2 : String) (un2 : Option String)
        (g2 : String),
        (leaveGroup st2 sid2 un2 g2).st.messageStatus = st2.messageStatus)
    ∧ (∀ (st2 : ServerState) (sid2 : String) (un2 : Option String)
        (g2 t2 : String),
        (addUserToGroup st2 sid2 un2 g2 t2).st.messageStatus
          = st2.messageStatus)
    ∧ (∀ (st2 : ServerState) (sid2 : String),
        (disconnect st2 sid2).st.messageStatus = st2.messageStatus)
    ∧ (∀ (ops : List Op) (mid : String) (i : TrackEntry),
        mapGet (runOps ops).messageStatus mid = some i →
        i.chatType = "group" → i.deliveredTo ≠ [] →
        i.status = "delivered" ∨ i.status = "read") := by
  refine ⟨?_,
    fun st2 sid2 un2 g2 f2 => (joinGroup_regMaps st2 sid2 un2 g2 f2).2.2,
    fun st2 sid2 un2 g2 => (leaveGroup_regMaps st2 sid2 un2 g2).2.2,
    fun st2 sid2 un2 g2 t2 => (addUserToGroup_regMaps st2 sid2 un2 g2 t2).2.2,
    fun st2 sid2 => disconnect_msFrame st2 sid2,
    fun ops mid i hg hc hd => msInv_runOps ops mid i hg hc hd⟩
  have hv1 : (doc.chatType == "private"
      && (doc.toUser != some reader || doc.fromUser != fromArg)) = false := by
    rw [hdct, litGP, Bool.false_and]
  have hmemdoc : memberOfDoc st doc reader = true := by
    simp only [memberOfDoc, hgid, hms]
    exact hmem
  have hv2 : (doc.chatType == "group" && !memberOfDoc st doc reader)
      = false := by
    rw [hmemdoc]
    simp
  have hred := msgRead_reduce st sid reader msgId fromArg true true now doc
    hr hm hf hfind hv1 hv2
  have hms2 : (msgRead st sid (some reader) msgId fromArg true true
      now).st.messageStatus
      = readMemMap st.messageStatus msgId reader now := by
    rw [hred]
    by_cases hc : doc.readBy.contains reader = true
    · rw [readDbStep_contained st msgId reader now doc true true hdct hc]
      rfl
    · have hc2 : doc.readBy.contains reader = false := by simpa using hc
      by_cases hlen : ((setAdd doc.readBy reader).length
          == info.totalMembers) = true
      · rw [readDbStep_ok2_group st msgId reader now doc info hdct hc2 hfind
          hinfo hlen]
        rfl
      · have hlen2 : ((setAdd doc.readBy reader).length
            == info.totalMembers) = false := by simpa using hlen
        rw [readDbStep_ok3_group st msgId reader now doc info true hdct hc2
          hfind hinfo hlen2]
        rfl
  rw [hms2, readMemMap_group_get st.messageStatus msgId reader now info hinfo
    hict]
  by_cases hlen : ((setAdd info.readBy reader).length == info.totalMembers)
      = true
  · rw [if_pos hlen]
    refine ⟨_, rfl, rfl, ?_⟩
    exact iff_of_true rfl (by simpa using hlen)
  · rw [if_neg hlen]
    refine ⟨_, rfl, rfl, ?_⟩
    exact iff_of_false hpre (fun hh => hlen (by simpa using hh))

/-- Witness for C3 at a concrete two-member group state: bob reads the
pending group message m1 whose snapshot is 2. -/
theorem c3_group_read_iff_snapshot_witness :
    (∃ info2 : TrackEntry,
        mapGet (msgRead wStG "s2" (some "bob") "m1" "alice" true true
            7).st.messageStatus "m1" = some info2
        ∧ info2.totalMembers = wEntryG.totalMembers
        ∧ (info2.status = "read"
            ↔ (setAdd wEntryG.readBy "bob").length = wEntryG.totalMembers))
    ∧ (∀ (st2 : ServerState) (sid2 : String) (un2 : Option String)
        (g2 f2 : String),
        (joinGroup st2 sid2 un2 g2 f2).st.messageStatus = st2.messageStatus)
    ∧ (∀ (st2 : ServerState) (sid2 : String) (un2 : Option String)
        (g2 : String),
        (leaveGroup st2 sid2 un2 g2).st.messageStatus = st2.messageStatus)
    ∧ (∀ (st2 : ServerState) (sid2 : String) (un2 : Option String)
        (g2 t2 : String),
        (addUserToGroup st2 sid2 un2 g2 t2).st.messageStatus
          = st2.messageStatus)
    ∧ (∀ (st2 : ServerState) (sid2 : String),
        (disconnect st2 sid2).st.messageStatus = st2.messageStatus)
    ∧ (∀ (ops : List Op) (mid : String) (i : TrackEntry),
        mapGet (runOps ops).messageStatus mid = some i →
        i.chatType = "group" → i.deliveredTo ≠ [] →
        i.status = "delivered" ∨ i.status = "read") :=
  c3_group_read_iff_snapshot wStG "s2" "bob" "m1" "alice" 7 wEntryG wDocG
    "g1" ["alice", "bob"] (by rfl) (by rfl) (by decide) (by decide)
    (by decide) (by decide) (by rfl) (by rfl) (by rfl) (by rfl) (by rfl)

/-- C6: when the durable append fails, a send fails atomically: the whole
state is unchanged, nothing is pushed, and the sender receives exactly one
error notification; when the durable append succeeds, the tracker entry
exists and the push happens — so tracker creation and push happen only
after a successful append, for private and group sends alike. -/
theorem c6_send_atomic_on_append_failure :
    (∀ (st : ServerState) (sid u toU text msgId rsid : String),
      u ≠ "" → toU ≠ "" → text ≠ "" →
      mapGet st.userSocketMap toU = some rsid →
      privateMessage st sid (some u) toU text msgId false
          = ⟨st, [⟨.sock sid, "error"⟩], false⟩
        ∧ ∃ e : TrackEntry,
          mapGet (privateMessage st sid (some u) toU text msgId
              true).st.messageStatus msgId = some e
          ∧ (privateMessage st sid (some u) toU text msgId true).emits
              = [⟨.sock rsid, "privateMessage"⟩, ⟨.sock sid, "messageSent"⟩])
    ∧ (∀ (st : ServerState) (sid u gname text msgId : String)
        (l : List String),
      u ≠ "" → gname ≠ "" → text ≠ "" →
      mapGet st.rooms (jsTrim gname) = some l → setHas l sid = true →
      groupMessage st sid (some u) gname text msgId false
          = ⟨st, [⟨.sock sid, "error"⟩], false⟩
        ∧ ∃ e : TrackEntry,
          mapGet (groupMessage st sid (some u) gname text msgId
              true).st.messageStatus msgId = some e
          ∧ (groupMessage st sid (some u) gname text msgId true).emits
              = [⟨.room ((mapGet st.groupIds (jsTrim gname)).getD ""),
                  "groupMessage"⟩]) := by
  constructor
  · intro st sid u toU text msgId rsid hu hto ht hsock
    have hfa : falsyS (some u) = false := by simp [falsyS, hu]
    have hc1 : (toU == "" || text == "") = false := by simp [hto, ht]
    refine ⟨?_, ?_⟩
    · simp only [privateMessage, Option.getD_some, hfa, hc1,
        Bool.false_eq_true, if_false, hsock]
    · refine ⟨{ fromUser := u, toUser := some toU, groupId := none,
                groupName := none, status := "sent", chatType := "private",
                deliveredTo := [], readBy := [], totalMembers := 0,
                deliveredAt := none, readAt := none }, ?_, ?_⟩
      · simp only [privateMessage, Option.getD_some, hfa, hc1,
          Bool.false_eq_true, if_false, hsock, if_true]
        exact mapGet_mapSet_self _ _ _
      · simp only [privateMessage, Option.getD_some, hfa, hc1,
          Bool.false_eq_true, if_false, hsock, if_true]
  · intro st sid u gname text msgId l hu hg ht hroom hmem
    have hfa : falsyS (some u) = false := by simp [falsyS, hu]
    have hc1 : (gname == "" || text == "") = false := by simp [hg, ht]
    have hhas : mapHas st.rooms (jsTrim gname) = true := by
      simp [mapHas, hroom]
    have hguard : (!mapHas st.rooms (jsTrim gname)
        || !setHas ((mapGet st.rooms (jsTrim gname)).getD []) sid)
          = false := by
      rw [hhas, hroom]
      simp only [Option.getD_some]
      rw [hmem]
      rfl
    refine ⟨?_, ?_⟩
    · simp only [groupMessage, Option.getD_some, hfa, hc1, hguard,
        Bool.false_eq_true, if_false]
    · refine ⟨{ fromUser := u, toUser := none,
                groupId := mapGet st.groupIds (jsTrim gname),
                groupName := some (jsTrim gname), status := "sent",
                chatType := "group", deliveredTo := [], readBy := [],
                totalMembers := ((mapGet st.rooms (jsTrim gname)).getD
                  []).length,
                deliveredAt := none, readAt := none }, ?_, ?_⟩
      · simp only [groupMessage, Option.getD_some, hfa, hc1, hguard,
          Bool.false_eq_true, if_false, if_true]
        exact mapGet_mapSet_self _ _ _
      · simp only [groupMessage, Option.getD_some, hfa, hc1, hguard,
          Bool.false_eq_true, if_false, if_true]

/-- Witness for C6 at concrete registered states: a private send from
alice to bob with a failing and a succeeding append, and a group send to
team likewise. -/
theorem c6_send_atomic_on_append_failure_witness :
    (privateMessage wStP "s1" (some "alice") "bob" "hey" "p9" false
        = ⟨wStP, [⟨.sock "s1", "error"⟩], false⟩
      ∧ ∃ e : TrackEntry,
        mapGet (privateMessage wStP "s1" (some "alice") "bob" "hey" "p9"
            true).st.messageStatus "p9" = some e
        ∧ (privateMessage wStP "s1" (some "alice") "bob" "hey" "p9"
            true).emits
            = [⟨.sock "s2", "privateMessage"⟩, ⟨.sock "s1", "messageSent"⟩])
    ∧ (groupMessage wStG "s1" (some "alice") "team" "hey" "m9" false
        = ⟨wStG, [⟨.sock "s1", "error"⟩], false⟩
      ∧ ∃ e : TrackEntry,
        mapGet (groupMessage wStG "s1" (some "alice") "team" "hey" "m9"
            true).st.messageStatus "m9" = some e
        ∧ (groupMessage wStG "s1" (some "alice") "team" "hey" "m9"
            true).emits
            = [⟨.room ((mapGet wStG.groupIds (jsTrim "team")).getD ""),
                "groupMessage"⟩]) :=
  ⟨c6_send_atomic_on_append_failure.1 wStP "s1" "alice" "bob" "hey" "p9"
      "s2" (by decide) (by decide) (by decide) (by rfl),
   c6_send_atomic_on_append_failure.2 wStG "s1" "alice" "team" "hey" "m9"
      ["s1", "s2"] (by decide) (by decide) (by decide) (by rfl) (by rfl)⟩

/-- C7 counterexample: the claim asserts that when the durable update of
an acknowledgment fails, the operation aborts with both representations
unchanged and the acting session notified.  In the run below alice reads
her own single-member group message m2; the first durable write (the
read-by addition) lands and the second (the aggregate status write)
fails: the handler emits nothing to the acting session, and the persisted
record now carries alice in read-by while keeping status sent — the
persisted record does not reflect the pre-operation state and no failure
notification is sent, so the claim as stated is false (the in-memory
tracker entry is indeed unchanged). -/
theorem c7_partial_persistence_and_silence :
    (msgRead (runOps wOpsC7) "s1" (some "alice") "m2" "alice" true false
        50).emits = []
    ∧ (dbFind (msgRead (runOps wOpsC7) "s1" (some "alice") "m2" "alice"
        true false 50).st.db "m2").map DbMessage.readBy = some ["alice"]
    ∧ (dbFind (msgRead (runOps wOpsC7) "s1" (some "alice") "m2" "alice"
        true false 50).st.db "m2").map DbMessage.status = some "sent"
    ∧ (dbFind (runOps wOpsC7).db "m2").map DbMessage.readBy = some []
    ∧ (msgRead (runOps wOpsC7) "s1" (some "alice") "m2" "alice" true false
        50).st.messageStatus = (runOps wOpsC7).messageStatus := by
  exact ⟨rfl, rfl, rfl, rfl, rfl⟩

/-- C7 amended: for every acknowledgment the durable update is requested
before any in-memory tracker mutation, so a durable failure leaves the
in-memory tracker unchanged; the acting session is not notified of the
failure (it is only logged).  When the failing write is the first durable
write of the handler the whole state is unchanged; in the group read path
a failure of the second write can leave the read-by addition persisted
while the tracker is still untouched and nothing is emitted. -/
theorem c7_durable_failure_aborts_before_memory :
    (∀ (st : ServerState) (sid receiver msgId fromArg : String) (now : Nat)
      (doc : DbMessage),
      receiver ≠ "" → msgId ≠ "" → fromArg ≠ "" →
      dbFind st.db msgId = some doc →
      ((doc.chatType = "private" ∧ doc.toUser = some receiver
          ∧ doc.fromUser = fromArg)
        ∨ (doc.chatType = "group" ∧ memberOfDoc st doc receiver = true
          ∧ doc.deliveredTo.contains receiver = false)) →
      msgDelivered st sid (some receiver) msgId fromArg false now
        = ⟨st, [], false⟩)
    ∧ (∀ (st : ServerState) (sid reader msgId fromArg : String)
        (ok2 : Bool) (now : Nat) (doc : DbMessage),
      reader ≠ "" → msgId ≠ "" → fromArg ≠ "" →
      dbFind st.db msgId = some doc →
      ((doc.chatType = "private" ∧ doc.toUser = some reader
          ∧ doc.fromUser = fromArg)
        ∨ (doc.chatType = "group" ∧ memberOfDoc st doc reader = true
          ∧ doc.readBy.contains reader = false)) →
      msgRead st sid (some reader) msgId fromArg false ok2 now
        = ⟨st, [], false⟩)
    ∧ (∀ (st : ServerState) (sid reader msgId fromArg : String) (now : Nat)
        (doc : DbMessage) (info : TrackEntry),
      reader ≠ "" → msgId ≠ "" → fromArg ≠ "" →
      dbFind st.db msgId = some doc →
      doc.chatType = "group" → memberOfDoc st doc reader = true →
      doc.readBy.contains reader = false →
      mapGet st.messageStatus msgId = some info →
      ((setAdd doc.readBy reader).length == info.totalMembers) = true →
      (msgRead st sid (some reader) msgId fromArg true false
          now).st.messageStatus = st.messageStatus
      ∧ (msgRead st sid (some reader) msgId fromArg true false now).emits
          = []) := by
  refine ⟨?_, ?_, ?_⟩
  · intro st sid receiver msgId fromArg now doc hr hm hf hfind hcase
    rcases hcase with ⟨hct, hto, hfrom⟩ | ⟨hct, hmem, hnc⟩
    · have hv1 : (doc.chatType == "private"
          && (doc.toUser != some receiver || doc.fromUser != fromArg))
            = false := by
        rw [hct, hto, hfrom]
        simp
      have hv2 : (doc.chatType == "group"
          && !memberOfDoc st doc receiver) = false := by
        rw [hct, litPG, Bool.false_and]
      rw [msgDelivered_reduce st sid receiver msgId fromArg false now doc
        hr hm hf hfind hv1 hv2,
        deliveredDbStep_fail_private st msgId receiver now doc hct]
      rfl
    · have hv1 : (doc.chatType == "private"
          && (doc.toUser != some receiver || doc.fromUser != fromArg))
            = false := by
        rw [hct, litGP, Bool.false_and]
      have hv2 : (doc.chatType == "group"
          && !memberOfDoc st doc receiver) = false := by
        rw [hmem]
        simp
      rw [msgDelivered_reduce st sid receiver msgId fromArg false now doc
        hr hm hf hfind hv1 hv2,
        deliveredDbStep_fail_group st msgId receiver now doc hct hnc]
      rfl
  · intro st sid reader msgId fromArg ok2 now doc hr hm hf hfind hcase
    rcases hcase with ⟨hct, hto, hfrom⟩ | ⟨hct, hmem, hnc⟩
    · have hv1 : (doc.chatType == "private"
          && (doc.toUser != some reader || doc.fromUser != fromArg))
            = false := by
        rw [hct, hto, hfrom]
        simp
      have hv2 : (doc.chatType == "group" && !memberOfDoc st doc reader)
          = false := by
        rw [hct, litPG, Bool.false_and]
      rw [msgRead_reduce st sid reader msgId fromArg false ok2 now doc
        hr hm hf hfind hv1 hv2,
        readDbStep_fail1_private st msgId reader now doc ok2 hct]
      rfl
    · have hv1 : (doc.chatType == "private"
          && (doc.toUser != some reader || doc.fromUser != fromArg))
            = false := by
        rw [hct, litGP, Bool.false_and]
      have hv2 : (doc.chatType == "group" && !memberOfDoc st doc reader)
          = false := by
        rw [hmem]
        simp
      rw [msgRead_reduce st sid reader msgId fromArg false ok2 now doc
        hr hm hf hfind hv1 hv2,
        readDbStep_fail1_group st msgId reader now doc ok2 hct hnc]
      rfl
  · intro st sid reader msgId fromArg now doc info hr hm hf hfind hct hmem
      hnc hinfo hlen
    have hv1 : (doc.chatType == "private"
        && (doc.toUser != some reader || doc.fromUser != fromArg))
          = false := by
      rw [hct, litGP, Bool.false_and]
    have hv2 : (doc.chatType == "group" && !memberOfDoc st doc reader)
        = false := by
      rw [hmem]
      simp
    rw [msgRead_reduce st sid reader msgId fromArg true false now doc
      hr hm hf hfind hv1 hv2,
      readDbStep_fail2_group st msgId reader now doc info hct hnc hfind
        hinfo hlen]
    exact ⟨rfl, rfl⟩

/-- Witness for the amended C7 theorem: a failing delivery update for the
private message p1, a failing first read update for p1, and a
second-write failure for the single-member group message m2. -/
theorem c7_durable_failure_aborts_before_memory_witness :
    (msgDelivered wStP "s2" (some "bob") "p1" "alice" false 9
        = ⟨wStP, [], false⟩)
    ∧ (msgRead wStP "s2" (some "bob") "p1" "alice" false true 9
        = ⟨wStP, [], false⟩)
    ∧ ((msgRead wStG1 "s1" (some "alice") "m2" "alice" true false
          9).st.messageStatus = wStG1.messageStatus
      ∧ (msgRead wStG1 "s1" (some "alice") "m2" "alice" true false
          9).emits = []) :=
  ⟨c7_durable_failure_aborts_before_memory.1 wStP "s2" "bob" "p1" "alice"
      9 wDocP (by decide) (by decide) (by decide) (by rfl)
      (Or.inl ⟨rfl, rfl, rfl⟩),
   c7_durable_failure_aborts_before_memory.2.1 wStP "s2" "bob" "p1"
      "alice" true 9 wDocP (by decide) (by decide) (by decide) (by rfl)
      (Or.inl ⟨rfl, rfl, rfl⟩),
   c7_durable_failure_aborts_before_memory.2.2 wStG1 "s1" "alice" "m2"
      "alice" 9 wDocG1 wEntryG1 (by decide) (by decide) (by decide)
      (by rfl) (by rfl) (by rfl) (by rfl) (by rfl) (by rfl)⟩

/-- C8: an acknowledgment whose message id is unknown to the durable
store, or whose acting identity is not the recorded recipient of a
private message or not a current member of the group of a group message,
is silently ignored by both acknowledgment handlers: no exception, no
notification to anyone, and no change to any state. -/
theorem c8_unknown_or_unentitled_ack_ignored (st : ServerState)
    (sid u msgId fromArg : String) (ok ok1 ok2 : Bool) (now : Nat)
    (hu : u ≠ "") (hm : msgId ≠ "") (hf : fromArg ≠ "")
    (hdrop : dbFind st.db msgId = none
      ∨ ∃ doc, dbFind st.db msgId = some doc
          ∧ ((doc.chatType = "private" ∧ doc.toUser ≠ some u)
             ∨ (doc.chatType = "group" ∧ memberOfDoc st doc u = false))) :
    msgDelivered st sid (some u) msgId fromArg ok now = ⟨st, [], false⟩
    ∧ msgRead st sid (some u) msgId fromArg ok1 ok2 now = ⟨st, [], false⟩ :=
  ⟨msgDelivered_silent st sid u msgId fromArg ok now hu hm hf hdrop,
   msgRead_silent st sid u msgId fromArg ok1 ok2 now hu hm hf hdrop⟩

/-- Witness for C8: an acknowledgment for the unknown message id zz and
an acknowledgment by carol, who is not the recipient of p1. -/
theorem c8_unknown_or_unentitled_ack_ignored_witness :
    (msgDelivered wStP "s2" (some "bob") "zz" "alice" true 9
        = ⟨wStP, [], false⟩
      ∧ msgRead wStP "s2" (some "bob") "zz" "alice" true true 9
        = ⟨wStP, [], false⟩)
    ∧ (msgDelivered wStP "s1" (some "carol") "p1" "alice" true 9
        = ⟨wStP, [], false⟩
      ∧ msgRead wStP "s1" (some "carol") "p1" "alice" true true 9
        = ⟨wStP, [], false⟩) :=
  ⟨c8_unknown_or_unentitled_ack_ignored wStP "s2" "bob" "zz" "alice" true
      true true 9 (by decide) (by decide) (by decide) (Or.inl (by rfl)),
   c8_unknown_or_unentitled_ack_ignored wStP "s1" "carol" "p1" "alice"
      true true true 9 (by decide) (by decide) (by decide)
      (Or.inr ⟨wDocP, by rfl, Or.inl ⟨rfl, by decide⟩⟩)⟩

end RtChat
